import Mathlib

/-!
Verification of the session-orchestration core of a browser-automation
backend. The definitions below are a shallow embedding of
`backend/utils/browser_session.py`, `backend/services/browser_service.py`
and `backend/services/command_service.py`. The planner (LLM), the browser
driver (playwright) and the page inspector are external collaborators and
are modelled as oracles; everything the orchestration code itself does is
translated directly from the source.

Modelling conventions:
* Python/JSON values are `JVal`; a Python dict is an association list in
  insertion order (`PyDict`).
* External calls (planner, driver calls, page extraction) are instantaneous
  on the logical clock; `asyncio.sleep` and the wait timeouts advance the
  clock by their full duration, in milliseconds.
* A raised Python exception is a `PyError` carrying the exception class
  name and `str(e)`; the `details` payload of the exception classes in
  `browser_utils.py` is never read by the code in scope and is omitted.
* Where the source would raise on an ill-typed planner-produced value (for
  instance a non-string URL reaching `str.startswith`), the model takes a
  fixed error path; no claim below depends on those corners.
-/

namespace BrowserAuto

/-- A JSON/Python value as produced by `json.loads` and passed around in
command and result dicts. -/
inductive JVal where
  | s (v : String)
  | b (v : Bool)
  | i (v : Int)
  | null
  | arr (vs : List JVal)
  | obj (fields : List (String × JVal))

mutual

/-- Structural equality of values (Python `==` as the source applies it to
JSON-shaped data). -/
def JVal.beq : JVal → JVal → Bool
  | .s a, .s c => a == c
  | .b a, .b c => a == c
  | .i a, .i c => a == c
  | .null, .null => true
  | .arr a, .arr c => JVal.beqList a c
  | .obj a, .obj c => JVal.beqObj a c
  | _, _ => false

def JVal.beqList : List JVal → List JVal → Bool
  | [], [] => true
  | a :: l1, c :: l2 => JVal.beq a c && JVal.beqList l1 l2
  | _, _ => false

def JVal.beqObj : List (String × JVal) → List (String × JVal) → Bool
  | [], [] => true
  | a :: l1, c :: l2 => a.1 == c.1 && JVal.beq a.2 c.2 && JVal.beqObj l1 l2
  | _, _ => false

end

instance : BEq JVal := ⟨JVal.beq⟩

/-- Python truthiness of a value (`if cmd.get(...)`). -/
def JVal.truthy : JVal → Bool
  | .s v => !(v == "")
  | .b v => v
  | .i v => !(v == 0)
  | .null => false
  | .arr vs => !vs.isEmpty
  | .obj fs => !fs.isEmpty

/-- Python `str()` of a value, as far as the code in scope needs it
(f-string interpolation of command fields). Containers are abbreviated;
no claim depends on them. -/
def JVal.pyStr : JVal → String
  | .s v => v
  | .b true => "True"
  | .b false => "False"
  | .i v => toString v
  | .null => "None"
  | .arr _ => "[...]"
  | .obj _ => "\x7b...\x7d"

/-- A Python dict with string keys, in insertion order. -/
abbrev PyDict := List (String × JVal)

/-- `d.get(k)` / `d.get(k, None)`. -/
def dictGet (d : PyDict) (k : String) : Option JVal :=
  (d.find? (fun kv => kv.1 == k)).map (fun kv => kv.2)

/-- `d.get(k, v)`. -/
def dictGetD (d : PyDict) (k : String) (v : JVal) : JVal :=
  (dictGet d k).getD v

/-- `k in d`. -/
def dictHas (d : PyDict) (k : String) : Bool :=
  d.any (fun kv => kv.1 == k)

/-- `d[k] = v`: replace the existing entry, or append a new key (Python
dicts keep insertion order). -/
def dictSet (d : PyDict) (k : String) (v : JVal) : PyDict :=
  if dictHas d k then d.map (fun kv => if kv.1 == k then (k, v) else kv)
  else d ++ [(k, v)]

/-- The uniform result dict built by `BrowserAction.execute` and by the
task loop, with the keys the code in scope reads lifted to fields
(`waitingForUser` is `waiting_for_user`, `needsNavigation` is
`needs_navigation`, `startTime`/`elapsed` are the captcha bookkeeping keys
`start_time`/`elapsed_time`). -/
structure ActionResult where
  success : Bool
  message : JVal
  command : JVal
  waitingForUser : Bool := false
  warning : Option String := none
  data : Option JVal := none
  needsNavigation : Bool := false
  startTime : Option Nat := none
  elapsed : Option Nat := none

/-- A raised Python exception: class name (the `browser_utils.py` taxonomy
plus builtins) and `str(e)`. -/
structure PyError where
  name : String
  message : String
deriving DecidableEq

/-! ## Action Dispatcher: `BrowserAction.execute` (`browser_service.py`)

The playwright page handle is abstracted as a `PageOracle`: each field is
the outcome the external driver would produce for the corresponding call.
The body of `execute` — the branch on `command_type`, the URL fix-up, the
local `try/except` blocks and the closing exception handlers at lines
485-501 — is translated directly; each branch notes the handler that
shapes its error. -/

/-- The response object of `page.goto`. -/
structure NavResponse where
  ok : Bool
  status : Int
deriving DecidableEq

/-- Outcome of `page.goto`: returned (possibly `None`), raised
`PlaywrightTimeoutError`, or raised some other driver exception. -/
inductive GotoRes where
  | resp (r : Option NavResponse)
  | timeout (msg : String)
  | exc (msg : String)

/-- Outcome of `page.wait_for_load_state`: reached the state, or raised
`PlaywrightTimeoutError`. -/
inductive LoadRes where
  | done
  | timeout (msg : String)

/-- Outcome of a driver call that returns nothing (`click`, `fill`,
`press`): completed, raised `PlaywrightTimeoutError`, or raised some other
exception. -/
inductive DriverRes where
  | ok
  | timeout (msg : String)
  | exc (msg : String)

/-- Outcome of the `extract_table` locator interaction: no element matched
the selector, a table was read, or some call raised. -/
inductive TableRes where
  | missing
  | table (headers : List String) (rows : List (List String))
  | exc (msg : String)

/-- The playwright page handle, abstracted to the outcomes of the driver
calls `BrowserAction.execute` makes. Selector and value arguments are
passed as the `str()` of the command field (the driver is external, so
only the outcome matters to the code in scope). -/
structure PageOracle where
  url : String
  goto : String → GotoRes
  /-- `wait_for_load_state(state, timeout)`; the timeout argument is
  passed through untouched. -/
  loadState : String → JVal → LoadRes
  /-- `wait_for_selector(selector, timeout)`: did it appear in time? -/
  selectorAppears : String → Bool
  click : String → DriverRes
  fill : String → JVal → DriverRes
  press : String → String → DriverRes
  keyboardPress : String → DriverRes
  /-- `page.text_content(selector)`; `.error` = raised. -/
  textContent : String → Except String (Option String)
  table : String → TableRes
  /-- Extracted links as (text, url, title); `.error` = raised. -/
  links : String → Except String (List (String × String × String))
  /-- `extract_elements`: the attribute dicts; `.error` = raised. -/
  elements : String → JVal → Except String (List PyDict)
  /-- `extract_json`: a successfully parsed JSON-LD payload, if any. Parse
  failures and absent script tags both fall through to the meta tags. -/
  jsonLd : Option JVal
  metaTags : List (String × String)

/-- `str.startswith(p)`, computed over the character lists. -/
def pyStarts (v p : String) : Bool :=
  p.data.isPrefixOf v.data

/-- Line 30-31: prefix `https://` unless the URL already starts with
`http://` or `https://`. -/
def normalizeUrl (u : String) : String :=
  if pyStarts u "http://" || pyStarts u "https://" then u
  else "https://" ++ u

/-- The default captcha message (lines 184-187 / 364-367). -/
def captchaDefaultMsg : String :=
  "Captcha detected. Please solve the captcha in the browser window."

/-- `BrowserAction.execute(command)` (`browser_service.py` lines 22-503):
dispatch on `command_type` and normalize the outcome into a result dict or
a raised exception. `tmo` is the session's operation timeout in seconds
(`self.timeout`). Errors raised inside a branch are shaped by the handlers
at lines 485-501: `PlaywrightTimeoutError` becomes `TimeoutError`, the
taxonomy classes pass through, anything else is wrapped as
`BrowserAutomationError` with an `Error executing ...` message. -/
def browserExecute (pg : PageOracle) (tmo : Nat) (cmd : PyDict) :
    Except PyError ActionResult :=
  let act := (dictGet cmd "command_type").getD .null
  if act == .s "navigate" then
    -- lines 28-44; a non-string url would raise in `startswith` and reach
    -- the generic handler (line 495); modelled with a fixed message.
    match dictGetD cmd "url" (.s "") with
    | .s u =>
      let target := normalizeUrl u
      match pg.goto target with
      | .resp (some r) =>
        if r.ok then
          .ok { success := true,
                message := .s ("Successfully navigated to " ++ target),
                command := act }
        else
          .error ⟨"NavigationError",
                  "Navigation to " ++ target ++ " failed or timed out"⟩
      | .resp none =>
        .error ⟨"NavigationError",
                "Navigation to " ++ target ++ " failed or timed out"⟩
      | .timeout m =>
        .error ⟨"TimeoutError", "Timeout error executing navigate: " ++ m⟩
      | .exc m =>
        .error ⟨"BrowserAutomationError", "Error executing navigate: " ++ m⟩
    | _ => .error ⟨"BrowserAutomationError",
                   "Error executing navigate: url is not a string"⟩
  else if act == .s "search" then
    -- lines 46-138 (the debug listing of available inputs is log-only)
    let sel := ((dictGet cmd "selector").getD .null).pyStr
    let query := (dictGet cmd "query").getD .null
    if pg.url == "about:blank" || pg.url == "" then
      .ok { success := false,
            message := .s "Cannot search on an empty page. A navigation command is required first.",
            command := act, needsNavigation := true }
    else
      match pg.loadState "domcontentloaded" (.i (tmo * 1000)) with
      | .timeout _ =>
        .error ⟨"TimeoutError", "Timeout waiting for page to load before searching"⟩
      | .done =>
        if !pg.selectorAppears sel then
          .error ⟨"ElementNotFoundError",
                  "Search element with selector '" ++ sel ++
                    "' not found on page: " ++ pg.url⟩
        else
          match pg.fill sel query with
          | .timeout m =>
            .error ⟨"TimeoutError", "Timeout error executing search: " ++ m⟩
          | .exc m =>
            .error ⟨"BrowserAutomationError", "Error executing search: " ++ m⟩
          | .ok =>
            match pg.press sel "Enter" with
            | .timeout m =>
              .error ⟨"TimeoutError", "Timeout error executing search: " ++ m⟩
            | .exc m =>
              .error ⟨"BrowserAutomationError", "Error executing search: " ++ m⟩
            | .ok =>
              match pg.loadState "networkidle" (.i (tmo * 1000)) with
              | .timeout _ =>
                .error ⟨"TimeoutError", "Timeout waiting for page to load after search"⟩
              | .done =>
                .ok { success := true,
                      message := .s ("Search performed for '" ++ query.pyStr ++ "'"),
                      command := act }
  else if act == .s "click" then
    -- lines 140-155
    let sel := ((dictGet cmd "selector").getD .null).pyStr
    if !pg.selectorAppears sel then
      .error ⟨"ElementNotFoundError",
              "Click element with selector '" ++ sel ++ "' not found"⟩
    else
      match pg.click sel with
      | .timeout m =>
        .error ⟨"TimeoutError", "Timeout error executing click: " ++ m⟩
      | .exc m =>
        .error ⟨"BrowserAutomationError", "Error executing click: " ++ m⟩
      | .ok =>
        .ok { success := true, message := .s ("Clicked on element: " ++ sel),
              command := act }
  else if act == .s "fill" then
    -- lines 157-173
    let sel := ((dictGet cmd "selector").getD .null).pyStr
    let value := (dictGet cmd "value").getD .null
    if !pg.selectorAppears sel then
      .error ⟨"ElementNotFoundError",
              "Form field with selector '" ++ sel ++ "' not found"⟩
    else
      match pg.fill sel value with
      | .timeout m =>
        .error ⟨"TimeoutError", "Timeout error executing fill: " ++ m⟩
      | .exc m =>
        .error ⟨"BrowserAutomationError", "Error executing fill: " ++ m⟩
      | .ok =>
        .ok { success := true, message := .s ("Filled " ++ sel ++ " with text"),
              command := act }
  else if act == .s "wait" then
    -- lines 175-181: `wait_for_timeout` always completes
    let seconds := dictGetD cmd "seconds" (.i 5)
    .ok { success := true,
          message := .s ("Waited for " ++ seconds.pyStr ++ " seconds"),
          command := act }
  else if act == .s "wait_for_captcha" then
    -- lines 183-198: no driver call; report that a captcha needs the user
    .ok { success := true,
          message := dictGetD cmd "message" (.s captchaDefaultMsg),
          command := act, waitingForUser := true }
  else if act == .s "wait_for_page_load" then
    -- lines 200-228: a timeout is downgraded to a successful result with a
    -- warning
    let t := dictGetD cmd "timeout" (.i 10000)
    match pg.loadState "domcontentloaded" t with
    | .timeout m =>
      .ok { success := true,
            message := .s "Page load wait timed out, but continuing",
            command := act,
            warning := some ("Timeout waiting for page to load completely: " ++ m) }
    | .done =>
      match pg.loadState "networkidle" t with
      | .timeout m =>
        .ok { success := true,
              message := .s "Page load wait timed out, but continuing",
              command := act,
              warning := some ("Timeout waiting for page to load completely: " ++ m) }
      | .done =>
        .ok { success := true, message := .s "Page fully loaded", command := act }
  else if act == .s "extract_text" then
    -- lines 230-244: any exception is wrapped as `ExtractorError`
    let sel := (dictGetD cmd "selector" (.s "body")).pyStr
    match pg.textContent sel with
    | .ok t =>
      .ok { success := true, message := .s ("Extracted text from " ++ sel),
            command := act,
            data := some (match t with | some v => .s v | none => .null) }
    | .error _ =>
      .error ⟨"ExtractorError",
              "Failed to extract text from selector '" ++ sel ++ "'"⟩
  else if act == .s "extract_table" then
    -- lines 246-299; the `No table found` ExtractorError raised at line 258
    -- is itself caught by the branch's `except Exception` (line 292) and
    -- re-wrapped, so both failure shapes carry the same message
    let sel := (dictGetD cmd "selector" (.s "table")).pyStr
    match pg.table sel with
    | .table hs rows =>
      .ok { success := true, message := .s ("Extracted table data from " ++ sel),
            command := act,
            data := some (.obj [("headers", .arr (hs.map .s)),
                                ("rows", .arr (rows.map (fun row => .arr (row.map .s))))]) }
    | .missing =>
      .error ⟨"ExtractorError",
              "Failed to extract table data from selector '" ++ sel ++ "'"⟩
    | .exc _ =>
      .error ⟨"ExtractorError",
              "Failed to extract table data from selector '" ++ sel ++ "'"⟩
  else if act == .s "extract_links" then
    -- lines 301-328
    let sel := (dictGetD cmd "selector" (.s "a")).pyStr
    match pg.links sel with
    | .ok ls =>
      .ok { success := true,
            message := .s ("Extracted " ++ toString ls.length ++ " links from " ++ sel),
            command := act,
            data := some (.arr (ls.map (fun l =>
              .obj [("text", .s l.1), ("url", .s l.2.1), ("title", .s l.2.2)]))) }
    | .error _ =>
      .error ⟨"ExtractorError",
              "Failed to extract links from selector '" ++ sel ++ "'"⟩
  else if act == .s "extract_elements" then
    -- lines 330-372
    let sel := ((dictGet cmd "selector").getD .null).pyStr
    let attrs := dictGetD cmd "attributes" (.arr [.s "innerText"])
    match pg.elements sel attrs with
    | .ok es =>
      .ok { success := true,
            message := .s ("Extracted " ++ toString es.length ++
                            " elements matching " ++ sel),
            command := act, data := some (.arr (es.map .obj)) }
    | .error _ =>
      .error ⟨"ExtractorError",
              "Failed to extract elements from selector '" ++ sel ++ "'"⟩
  else if act == .s "extract_json" then
    -- lines 374-437; the `No structured JSON data found` ExtractorError at
    -- line 433 is re-caught at line 434 and re-wrapped
    match pg.jsonLd with
    | some v =>
      .ok { success := true, message := .s "Extracted structured JSON-LD data",
            command := act, data := some v }
    | none =>
      if !pg.metaTags.isEmpty then
        .ok { success := true, message := .s "Extracted structured meta tag data",
              command := act,
              data := some (.obj (pg.metaTags.map (fun kv => (kv.1, .s kv.2)))) }
      else
        .error ⟨"ExtractorError", "Failed to extract JSON data from page"⟩
  else if act == .s "press" then
    -- lines 439-478; a raised `BrowserAutomationError` is not in the tuple
    -- at line 491, so the generic handler at line 495 wraps it once more
    let key := ((dictGet cmd "key").getD .null).pyStr
    let sel := (dictGet cmd "selector").getD .null
    if sel.truthy then
      let s := sel.pyStr
      if !pg.selectorAppears s then
        .error ⟨"ElementNotFoundError",
                "Element with selector '" ++ s ++ "' not found for key press"⟩
      else
        match pg.press s key with
        | .ok =>
          .ok { success := true, message := .s ("Pressed " ++ key ++ " on " ++ s),
                command := act }
        | .timeout _ =>
          .error ⟨"ElementNotFoundError",
                  "Element with selector '" ++ s ++ "' not found for key press"⟩
        | .exc m =>
          .error ⟨"BrowserAutomationError",
                  "Error executing press: Error pressing " ++ key ++ ": " ++ m⟩
    else
      match pg.keyboardPress key with
      | .ok =>
        .ok { success := true, message := .s ("Pressed " ++ key), command := act }
      | .timeout _ =>
        .error ⟨"BrowserAutomationError",
                "Error executing press: Failed to press " ++ key⟩
      | .exc m =>
        .error ⟨"BrowserAutomationError",
                "Error executing press: Error pressing " ++ key ++ ": " ++ m⟩
  else
    -- lines 480-483: `raise ValueError(f"Unknown command type: ...")`, which
    -- the generic handler at line 495 wraps as `BrowserAutomationError`
    .error ⟨"BrowserAutomationError",
            "Error executing " ++ act.pyStr ++ ": Unknown command type: " ++ act.pyStr⟩

/-! ## Planner output post-processing: `get_browser_commands`
(`command_service.py` lines 204-303)

The LLM call and JSON parsing are external; the embedding starts from the
parsed response object and the page structure handed in by the caller. -/

/-- `value.isdigit()` on the ASCII strings the source meets, computed over
the character list. -/
def pyIsDigit (v : String) : Bool :=
  !(v == "") && v.data.all Char.isDigit

/-- `value.lower()` (ASCII, computed over the character list). -/
def pyLower (v : String) : String :=
  ⟨v.data.map Char.toLower⟩

/-- `int(value)` for a digit-only string. -/
def pyInt (v : String) : Int :=
  Int.ofNat (v.data.foldl (fun n c => n * 10 + (c.toNat - 48)) 0)

/-- The per-value step of the normalization loop (lines 207-216):
case-insensitive `"true"`/`"false"` strings become booleans, digit-only
strings become integers, everything else is untouched. -/
def normalizeVal (v : JVal) : JVal :=
  match v with
  | .s str =>
    if pyLower str == "true" then .b true
    else if pyLower str == "false" then .b false
    else if pyIsDigit str then .i (pyInt str)
    else .s str
  | v => v

/-- The normalization loop applied to one command dict. -/
def normalizeCmd (cmd : PyDict) : PyDict :=
  cmd.map (fun kv => (kv.1, normalizeVal kv.2))

/-- Lines 118-121: the page counts as blank when there is no structure, an
empty structure, or its URL starts with `about:`. A non-string `url` would
raise in the source; modelled as non-blank. -/
def isBlankPage (ps : Option PyDict) : Bool :=
  match ps with
  | none => true
  | some d =>
    d.isEmpty ||
      (match dictGetD d "url" (.s "") with
       | .s u => pyStarts u "about:"
       | _ => false)

/-- `cmd.get("command_type") == "navigate"` (no default: absent is `None`). -/
def isNavigateCmd (cmd : PyDict) : Bool :=
  dictGet cmd "command_type" == some (JVal.s "navigate")

/-- The fallback command injected for a blank page (lines 229-234). -/
def defaultNavigateCmd : PyDict :=
  [("command_type", .s "navigate"), ("url", .s "https://www.google.com")]

/-- The `wait_for_page_load` command inserted after a navigation
(lines 245-248). -/
def waitForPageLoadCmd : PyDict :=
  [("command_type", .s "wait_for_page_load"), ("timeout", .i 10000)]

/-- Lines 239-260: copy the commands, insert `wait_for_page_load` after a
`navigate`, and drop everything after the first `navigate` (commands past
a navigation belong to the next iteration). -/
def insertWaits : List PyDict → List PyDict
  | [] => []
  | cmd :: rest =>
    if isNavigateCmd cmd then [cmd, waitForPageLoadCmd]
    else cmd :: insertWaits rest

/-- Apply `f` to the last element (Python `processed_commands[-1]`). -/
def mapLast (f : PyDict → PyDict) : List PyDict → List PyDict
  | [] => []
  | [c] => [f c]
  | c :: rest => c :: mapLast f rest

/-- Line 204: `parsed_response.get("commands", [])`, as a list of dicts. -/
def parseCommands (parsed : PyDict) : List PyDict :=
  match dictGetD parsed "commands" (.arr []) with
  | .arr vs => vs.filterMap (fun v => match v with | .obj f => some f | _ => none)
  | _ => []

/-- Lines 223-236: on a blank page keep only the first command, and only
when it is a navigation; otherwise substitute the default navigation. -/
def restrictBlank (blank : Bool) (commands : List PyDict) : List PyDict :=
  if blank then
    match commands with
    | [] => [defaultNavigateCmd]
    | c :: _ => if isNavigateCmd c then [c] else [defaultNavigateCmd]
  else commands

/-- Lines 265-286: the completion signal -- a truthy `task_completed` flag
on a command (with its `task_summary`), else on the top-level response. -/
def completionSignal (parsed : PyDict) (commands : List PyDict) : Bool × JVal :=
  match commands.find? (fun c =>
      dictHas c "task_completed" && (dictGetD c "task_completed" .null).truthy) with
  | some c =>
    (true, if dictHas c "task_summary" then dictGetD c "task_summary" .null else .s "")
  | none =>
    if dictHas parsed "task_completed" &&
        (dictGetD parsed "task_completed" .null).truthy then
      (true, if dictHas parsed "task_summary" then dictGetD parsed "task_summary" .null
             else .s "")
    else (false, .s "")

/-- Lines 298-301: mark the last command completed and attach the
summary. -/
def attachCompletion (sig : Bool × JVal) (processed : List PyDict) : List PyDict :=
  if sig.1 then
    mapLast (fun c =>
      let c := dictSet c "task_completed" (.b true)
      if sig.2.truthy then dictSet c "task_summary" sig.2 else c) processed
  else processed

/-- `get_browser_commands` from the parsed LLM response on (lines 204-303):
normalize the command values, restrict a blank page to one navigation,
insert the post-navigation wait, detect the completion signal and attach
it to the last command. The early `return []` at line 220 makes the
empty-commands `task_complete` marker at lines 288-295 unreachable, so it
is not modelled beyond this comment. -/
def getBrowserCommands (parsed : PyDict) (ps : Option PyDict) : List PyDict :=
  let commands := (parseCommands parsed).map normalizeCmd
  if commands.isEmpty then []
  else
    let commands := restrictBlank (isBlankPage ps) commands
    attachCompletion (completionSignal parsed commands) (insertWaits commands)

/-! ## Task Loop: `BrowserSession._execute_command`
(`browser_session.py` lines 228-496) and its helpers

The planner and the action executor are oracles indexed by their call
count (their output depends on an external LLM and on the live page). The
logical clock counts milliseconds: external calls are instantaneous,
`asyncio.sleep` and the 1-second captcha poll advance it by their full
duration. `iteration_results` is only ever passed to log-producing interim
explanations, so the model keeps only `command_chain_results` (the
per-iteration slice is recoverable as the batch output). -/

/-- `BrowserSession._generate_explanation` needs one helper: the phrase
contributed by one successful result (lines 512-532). -/
def describeAction (r : ActionResult) : List String :=
  if r.command == JVal.s "navigate" then ["navigated to the website"]
  else if r.command == JVal.s "click" then ["clicked on an element"]
  else if r.command == JVal.s "fill" then ["entered text into a field"]
  else if r.command == JVal.s "wait" then ["waited for the page to load"]
  else if r.command == JVal.s "wait_for_captcha" then
    if r.waitingForUser then ["paused execution for you to solve a captcha"]
    else ["detected a captcha"]
  else if r.command == JVal.s "extract_text" then ["extracted text content"]
  else []

/-- `BrowserSession._generate_explanation` (lines 498-566): a pure
formatting pass over the result list; `wf` is `self.wait_for_captcha`. -/
def generateExplanation (wf : Bool) (userInput : String)
    (results : List ActionResult) : String :=
  if results.isEmpty then "No actions were performed."
  else
    let successful := results.filter (fun r => r.success)
    let failed := results.filter (fun r => !r.success)
    let summary := "Based on your request to '" ++ userInput ++ "', I "
    let summary :=
      if !successful.isEmpty then
        summary ++ String.intercalate ", " (successful.map describeAction).flatten
      else summary
    let summary :=
      if !failed.isEmpty then
        let t := if !successful.isEmpty then summary ++ " but " else summary
        let t := t ++ "encountered " ++ toString failed.length ++ " error(s)"
        if !(failed.filter (fun r => r.command == JVal.s "wait_for_captcha")).isEmpty
            && !wf then
          t ++ ". A captcha was detected but automatic waiting is disabled. Enable 'wait_for_captcha' to pause execution when captchas are detected."
        else t
      else summary
    let summary :=
      if !successful.isEmpty && failed.isEmpty then
        summary ++ ". The task was completed successfully."
      else if !successful.isEmpty && !failed.isEmpty then
        summary ++ ". The task was partially completed."
      else summary ++ ". The task could not be completed."
    results.foldl (fun t r =>
      if r.command == JVal.s "wait_for_captcha" && r.waitingForUser then
        t ++ " The browser is waiting for you to solve the captcha. Once solved, the automation will continue."
      else t) summary

/-- The captcha-disabled failure message (lines 393-397). -/
def captchaDisabledMsg : String :=
  "Captcha detected but automatic waiting is disabled. Enable 'wait_for_captcha' to pause execution."

/-- Line 238: `max_iterations = 15`. -/
def maxIterations : Nat := 15

/-- What executing one planner batch produced (lines 352-434): `results`
is this iteration's `iteration_results` (every consumed command
contributes exactly one entry, in order), `waiting` tells whether a
`wait_for_captcha` command put the loop into the waiting state, and
`captchaStart` is that result's `start_time`. `calls` is the executor
call counter after the batch. -/
structure BatchOut where
  results : List ActionResult
  waiting : Bool
  captchaStart : Nat
  calls : Nat

/-- Execute one planner batch (lines 357-434). `wf` is the session's
`wait_for_captcha` flag, `clock` the logical time, `k` the executor call
counter. An executor exception is converted to a failure result
(lines 405-413); a failed critical action (navigate/click/fill) and a
successful navigate truncate the batch; a `wait_for_captcha` command with
`wf` set records the waiting result and truncates it. -/
def toBatchResult (act : JVal) (o : Except PyError ActionResult) : ActionResult :=
  match o with
  | .ok r => r
  | .error e =>
    { success := false,
      message := .s ("Error executing " ++ act.pyStr ++ ": " ++ e.message),
      command := act }

/-- The waiting result created at lines 378-384. -/
def captchaWaitingResult (act msg : JVal) (clock : Nat) : ActionResult :=
  { success := true, message := msg, command := act,
    waitingForUser := true, startTime := some clock }

def execBatch (wf : Bool) (ex : Nat → PyDict → Except PyError ActionResult)
    (clock : Nat) : Nat → List PyDict → BatchOut
  | k, [] => ⟨[], false, 0, k⟩
  | k, cmd :: rest =>
    let act := dictGetD cmd "command_type" (.s "")
    if act == JVal.s "wait_for_captcha" then
      if wf then
        ⟨[captchaWaitingResult act (dictGetD cmd "message" (.s captchaDefaultMsg)) clock],
          true, clock, k⟩
      else
        let o := execBatch wf ex clock k rest
        ⟨{ success := false, message := .s captchaDisabledMsg, command := act }
            :: o.results,
          o.waiting, o.captchaStart, o.calls⟩
    else
      let r := toBatchResult act (ex k cmd)
      if !r.success && (act == JVal.s "navigate" || act == JVal.s "click"
          || act == JVal.s "fill") then
        ⟨[r], false, 0, k + 1⟩
      else if act == JVal.s "navigate" && r.success then
        ⟨[r], false, 0, k + 1⟩
      else
        let o := execBatch wf ex clock (k + 1) rest
        ⟨r :: o.results, o.waiting, o.captchaStart, o.calls⟩

/-- The task loop's external collaborators and session configuration. -/
structure LoopEnv where
  planner : Nat → List PyDict
  exec : Nat → PyDict → Except PyError ActionResult
  /-- Logical time at which an external caller sets `captcha_resolved`;
  `none` = never. The model covers at most one external resolution, so the
  `Event.clear` calls (lines 264 and 371) have nothing further to reset. -/
  resolveAt : Option Nat := none
  waitForCaptcha : Bool := false
  userInput : String := ""

/-- `self.captcha_resolved.is_set()` at logical time `t`. -/
def LoopEnv.eventSet (env : LoopEnv) (t : Nat) : Bool :=
  match env.resolveAt with
  | some r => decide (r ≤ t)
  | none => false

/-- The loop-local state of `_execute_command`. `captchaIdx` is the index
in `chain` of the live `captcha_result` dict (it is aliased into
`command_chain_results`, so mutating it mutates the history entry). -/
structure LoopState where
  clock : Nat
  iterations : Nat
  taskCompleted : Bool
  finalExplanation : JVal
  isWaiting : Bool
  captchaIdx : Option Nat
  captchaStart : Nat
  chain : List ActionResult
  planCalls : Nat
  execCalls : Nat

/-- In-place update of the element at an index (models mutating the
aliased `captcha_result` dict). -/
def modifyIdx (f : ActionResult → ActionResult) :
    Nat → List ActionResult → List ActionResult
  | _, [] => []
  | 0, r :: rest => f r :: rest
  | n + 1, r :: rest => r :: modifyIdx f n rest

/-- The synthetic result appended when a captcha resolution is observed
(lines 256-261). -/
def captchaResolvedResult : ActionResult :=
  { success := true, message := .s "Captcha was successfully resolved",
    command := .s "captcha_resolved" }

/-- Line 340-341. -/
def stillWaitingMsg : String := "Still waiting for captcha to be solved..."

/-- Line 460-461. -/
def captchaTimeoutMsg : String := "Timeout waiting for captcha to be solved"

/-- Lines 336-350: the 1-second poll on `captcha_resolved` timed out;
refresh the aliased captcha result, sleep one more second, and go to the
next iteration (`continue`). -/
def waitTimeoutStep (st : LoopState) : Bool × LoopState :=
  let t := st.clock + 1000
  let chain :=
    match st.captchaIdx with
    | some i =>
      modifyIdx (fun r =>
        { r with message := .s stillWaitingMsg,
                 elapsed := some (t - (r.startTime.getD t)) }) i st.chain
    | none => st.chain
  (false, { st with clock := t + 1000, chain := chain })

/-- Lines 251-264: when the loop was waiting and the captcha event is
set, resume — append the synthetic resolution result and clear the
waiting flag. -/
def iterResume (env : LoopEnv) (st : LoopState) : LoopState :=
  if st.isWaiting && env.eventSet st.clock then
    { st with isWaiting := false, captchaIdx := none,
              chain := st.chain ++ [captchaResolvedResult] }
  else st

/-- Lines 316-350: the waiting iteration body — do not ask the planner,
poll the captcha event for one second, then sleep one second; every path
`continue`s. -/
def iterWaitingStep (env : LoopEnv) (st : LoopState) : Bool × LoopState :=
  if env.eventSet st.clock then (false, st)
  else
    match env.resolveAt with
    | some r =>
      if r ≤ st.clock + 1000 then (false, { st with clock := max st.clock r })
      else waitTimeoutStep st
    | none => waitTimeoutStep st

/-- Lines 277-466: the non-waiting iteration body — ask the planner,
handle completion signals, execute the batch, sleep, and run the
five-minute check on a freshly started captcha wait. -/
def iterBatchStep (env : LoopEnv) (st : LoopState) : Bool × LoopState :=
  let batch := env.planner st.planCalls
  let st := { st with planCalls := st.planCalls + 1 }
  match batch with
  | [] => (true, st)  -- lines 285-289: no more commands
  | c :: rest =>
    if rest.isEmpty && dictGet c "command_type" == some (JVal.s "task_complete") then
      -- lines 291-303: explicit completion marker ends the loop
      (true, { st with taskCompleted := true,
                       finalExplanation :=
                         dictGetD c "message" (.s "Task completed successfully") })
    else
      -- lines 305-315: a completion flag on any command
      let st :=
        match batch.find? (fun cmd =>
            (dictGetD cmd "task_completed" (.b false)).truthy) with
        | some cmd =>
          { st with taskCompleted := true,
                    finalExplanation :=
                      dictGetD cmd "task_summary" (.s "Task completed successfully") }
        | none => st
      -- lines 352-434: execute the batch
      let out := execBatch env.waitForCaptcha env.exec st.clock st.execCalls batch
      let st :=
        { st with chain := st.chain ++ out.results,
                  execCalls := out.calls,
                  isWaiting := out.waiting,
                  captchaIdx :=
                    if out.waiting then some (st.chain.length + out.results.length - 1)
                    else st.captchaIdx,
                  captchaStart :=
                    if out.waiting then out.captchaStart else st.captchaStart }
      -- line 437: asyncio.sleep(0.5); lines 439-448 only produce a log line
      let st := { st with clock := st.clock + 500 }
      -- lines 450-466: the five-minute check on a freshly started wait
      if st.isWaiting then
        if st.clock - st.captchaStart > 300000 then
          (true, { st with isWaiting := false,
                           chain :=
                             match st.captchaIdx with
                             | some i =>
                               modifyIdx (fun r =>
                                 { r with message := .s captchaTimeoutMsg,
                                          success := false,
                                          waitingForUser := false }) i st.chain
                             | none => st.chain })
        else (false, st)
      else (false, st)

/-- One iteration of the `while` loop of `_execute_command`
(lines 246-466). Returns `(brk, st)` where `brk` records that the
iteration left the loop through a `break`. The page-structure extraction
(lines 266-274) is an external call whose output only feeds the planner
oracle, so it does not appear explicitly. -/
def iterStep (env : LoopEnv) (st : LoopState) : Bool × LoopState :=
  let st := iterResume env { st with iterations := st.iterations + 1 }
  if st.isWaiting then iterWaitingStep env st
  else iterBatchStep env st

/-- The `while` loop at line 246, fueled. Each iteration increments
`iterations` and the guard needs `iterations < 15`, so
`maxIterations + 1` fuel always drains the loop. -/
def runLoop (env : LoopEnv) : Nat → LoopState → LoopState
  | 0, st => st
  | fuel + 1, st =>
    if st.taskCompleted = false ∧ st.iterations < maxIterations then
      let s := iterStep env st
      if s.1 then s.2 else runLoop env fuel s.2
    else st

/-- The final result dict of `_execute_command` plus loop instrumentation
(`iterations`, `clock`) that the model exposes for the statements below. -/
structure RunOutput where
  status : String
  results : List ActionResult
  explanation : String
  taskCompleted : Bool
  iterations : Nat
  clock : Nat

/-- Line 476-478. -/
def maxStepsNote : String :=
  " The task execution reached its maximum number of steps."

/-- Lines 468-489: build the final explanation and package the result. -/
def finishCommand (env : LoopEnv) (st : LoopState) : RunOutput :=
  let explanation :=
    if st.taskCompleted && st.finalExplanation.truthy then
      "Task completed: " ++ st.finalExplanation.pyStr
    else
      let e := generateExplanation env.waitForCaptcha env.userInput st.chain
      if maxIterations ≤ st.iterations then e ++ maxStepsNote else e
  { status := "success", results := st.chain, explanation := explanation,
    taskCompleted := st.taskCompleted, iterations := st.iterations,
    clock := st.clock }

/-- The state at line 237-243 of `_execute_command`. -/
def initLoopState : LoopState :=
  { clock := 0, iterations := 0, taskCompleted := false,
    finalExplanation := .s "", isWaiting := false, captchaIdx := none,
    captchaStart := 0, chain := [], planCalls := 0, execCalls := 0 }

/-- `BrowserSession._execute_command` for one command: run the bounded
task loop and package the final result. -/
def runCommand (env : LoopEnv) : RunOutput :=
  finishCommand env (runLoop env (maxIterations + 1) initLoopState)

/-- The completion signals of one planner batch as `_execute_command`
reads them (lines 291-315): a lone `task_complete` command, or a truthy
`task_completed` flag on any command. -/
def signalsCompletion (batch : List PyDict) : Bool :=
  (match batch with
   | [c] => dictGet c "command_type" == some (JVal.s "task_complete")
   | _ => false) ||
  batch.any (fun cmd => (dictGetD cmd "task_completed" (.b false)).truthy)

/-! ## Command Queue + Worker: `BrowserSession._process_command_queue`
(`browser_session.py` lines 568-601) and `add_command` (lines 176-195)

The queue is append-only; the single worker coroutine scans it for the
first unprocessed command, executes it (an `await`, during which other
coroutines may only append), then marks it processed. The model keeps one
processed flag per command in enqueue order, the index the worker is
executing, and the log of completed indices in completion order. Having a
single `current : Option Nat` is exactly the source's shape: the session
owns one worker task and `is_processing` guards re-entry, so there is no
second in-flight slot to represent. -/

structure QueueState where
  flags : List Bool
  current : Option Nat
  completed : List Nat
deriving DecidableEq

/-- Lines 575-578: the worker's scan for the first unprocessed command
(`for i, cmd in enumerate(self.command_queue): if not cmd.processed`). -/
def firstUnprocessed : List Bool → Option Nat
  | [] => none
  | false :: _ => some 0
  | true :: rest => (firstUnprocessed rest).map (fun n => n + 1)

/-- The interleaved events on one session's queue: `enqueue` is
`add_command` (append, possible at any time, including while the worker
awaits `_execute_command`); `pick` is the worker finding the first
unprocessed command and setting `is_processing`/`current_command`
(lines 575-581), only possible when it is not already processing one;
`finish` is `_execute_command` returning and the command being marked
processed (lines 583-591). -/
inductive QueueStep : QueueState → QueueState → Prop where
  | enqueue (s : QueueState) :
      QueueStep s { s with flags := s.flags ++ [false] }
  | pick (s : QueueState) (i : Nat) (hc : s.current = none)
      (hf : firstUnprocessed s.flags = some i) :
      QueueStep s { s with current := some i }
  | finish (s : QueueState) (i : Nat) (hc : s.current = some i) :
      QueueStep s { flags := s.flags.set i true, current := none,
                    completed := s.completed ++ [i] }

/-- A fresh session's queue. -/
def initQueue : QueueState := ⟨[], none, []⟩

/-- The states one session's queue can reach. -/
def QueueReachable (s : QueueState) : Prop :=
  Relation.ReflTransGen QueueStep initQueue s

/-! ## Session Registry: `BrowserSessionManager`
(`browser_session.py` lines 609-699)

Only what claim C4 needs of a session is kept: the lifecycle flag
(`is_active`), `last_activity`, and the count of unprocessed commands.
The registry clock is in seconds. -/

structure SessionSt where
  active : Bool
  lastActivity : Nat
  pending : Nat
deriving DecidableEq

structure Registry where
  sessions : List (String × SessionSt)
  now : Nat
deriving DecidableEq

/-- Line 594 / 688: the 30-minute inactivity window, in seconds. -/
def idleLimit : Nat := 1800

/-- One iteration of the worker loop of session `sid` reduced to its
queue/lifecycle bookkeeping (lines 574-601): while active, process the
oldest unprocessed command if there is one (refreshing `last_activity`),
otherwise stop the session once it has been idle longer than the window.
Command execution itself is collapsed to the pending count. -/
def workerPass (reg : Registry) (sid : String) : Registry :=
  { reg with sessions := reg.sessions.map (fun p =>
      if p.1 == sid then
        if !p.2.active then p
        else if 0 < p.2.pending then
          (p.1, { p.2 with pending := p.2.pending - 1, lastActivity := reg.now })
        else if idleLimit < reg.now - p.2.lastActivity then
          (p.1, { p.2 with active := false })
        else p
      else p) }

/-- Advance the registry clock by `d` seconds. -/
def tick (reg : Registry) (d : Nat) : Registry :=
  { reg with now := reg.now + d }

/-- One pass of `BrowserSessionManager.cleanup_inactive_sessions`
(lines 681-697): stop and drop every session that is inactive or idle
beyond the window. Defined from the source, but no code in the repository
ever schedules this coroutine, so the running system never takes this
step. -/
def cleanupPass (reg : Registry) : Registry :=
  { reg with sessions := reg.sessions.filter (fun p =>
      !(!p.2.active || decide (idleLimit < reg.now - p.2.lastActivity))) }

/-- `BrowserSessionManager.get_session_status` (lines 656-662): a
not-found error for an unknown id, else the session's status payload
(lines 214-226, restricted to the fields this model carries:
`is_active`, `pending_commands`, `last_activity`). -/
def getSessionStatus (reg : Registry) (sid : String) :
    Except String (Bool × Nat × Nat) :=
  match reg.sessions.find? (fun p => p.1 == sid) with
  | none => .error ("Session " ++ sid ++ " not found")
  | some p => .ok (p.2.active, p.2.pending, p.2.lastActivity)

/-! ## Concrete fixtures for the closed statements below -/

/-- The `command_type` strings `BrowserAction.execute` dispatches on. -/
def knownCommandTypes : List String :=
  ["navigate", "search", "click", "fill", "wait", "wait_for_captcha",
   "wait_for_page_load", "extract_text", "extract_table", "extract_links",
   "extract_elements", "extract_json", "press"]

/-- The normalized-field property claim C10 asserts: no string spelling of
a boolean and no digit-only string. -/
def isNormalizedVal (v : JVal) : Bool :=
  match v with
  | .s str =>
    !(pyLower str == "true") && !(pyLower str == "false") && !(pyIsDigit str)
  | _ => true

/-- Claim C10's property over a returned command list. -/
def allFieldsNormalized (cmds : List PyDict) : Bool :=
  cmds.all (fun c => c.all (fun kv => isNormalizedVal kv.2))

/-- A page oracle whose driver calls all succeed trivially. -/
def idlePage : PageOracle :=
  { url := "https://example.com/",
    goto := fun _ => .resp (some ⟨true, 200⟩),
    loadState := fun _ _ => .done,
    selectorAppears := fun _ => true,
    click := fun _ => .ok,
    fill := fun _ _ => .ok,
    press := fun _ _ => .ok,
    keyboardPress := fun _ => .ok,
    textContent := fun _ => .ok (some "text"),
    table := fun _ => .missing,
    links := fun _ => .ok [],
    elements := fun _ _ => .ok [],
    jsonLd := none,
    metaTags := [] }

/-- A page oracle whose `goto` raises `PlaywrightTimeoutError`. -/
def timeoutPage : PageOracle :=
  { idlePage with goto := fun _ => .timeout "Timeout 30000ms exceeded." }

/-- A trivial executor result. -/
def okResult : ActionResult :=
  { success := true, message := .s "done", command := .s "wait" }

/-- An environment whose planner always returns an empty batch. -/
def emptyPlannerEnv : LoopEnv :=
  { planner := fun _ => [],
    exec := fun _ _ => .ok okResult,
    userInput := "do the thing" }

/-- An environment whose planner always returns one `wait` command and
never signals completion. -/
def waitPlannerEnv : LoopEnv :=
  { planner := fun _ => [[("command_type", JVal.s "wait"), ("seconds", JVal.i 1)]],
    exec := fun _ _ => .ok okResult,
    userInput := "keep waiting" }

/-- An environment whose planner asks for a captcha wait on its first
call, with `wait_for_captcha` enabled and the captcha never resolved. -/
def captchaEnv : LoopEnv :=
  { planner := fun i => if i == 0 then [[("command_type", JVal.s "wait_for_captcha")]] else [],
    exec := fun _ _ => .ok okResult,
    resolveAt := none,
    waitForCaptcha := true,
    userInput := "log in" }

/-- A registry holding one fresh session with an empty queue. -/
def oneSessionRegistry : Registry :=
  { sessions := [("sid-1", { active := true, lastActivity := 0, pending := 0 })],
    now := 0 }

def teleportCmd : PyDict := [("command_type", JVal.s "teleport")]

def navExampleCmd : PyDict :=
  [("command_type", JVal.s "navigate"), ("url", JVal.s "example.com")]

def clickButtonCmd : PyDict :=
  [("command_type", JVal.s "click"), ("selector", JVal.s "#btn")]

def pageLoadCmd : PyDict := [("command_type", JVal.s "wait_for_page_load")]

/-- The parsed LLM response of the C10 counterexample: one `wait` command,
completion signalled at top level, summary string `"true"`. -/
def summaryResponse : PyDict :=
  [("commands", JVal.arr [JVal.obj [("command_type", JVal.s "wait")]]),
   ("task_completed", JVal.b true),
   ("task_summary", JVal.s "true")]

/-- A non-blank page structure. -/
def examplePageStructure : PyDict := [("url", JVal.s "https://example.com/")]

/-- The queue invariant behind claim C1: the processed flags are a prefix
of `true`s, the completion log lists exactly that prefix in enqueue
order, and an in-flight index always sits at the first unprocessed
position. -/
def QueueInv (st : QueueState) : Prop :=
  ∃ k m, st.flags = List.replicate k true ++ List.replicate m false ∧
    st.completed = List.range k ∧
    ∀ i, st.current = some i → i = k ∧ 0 < m

/-- A queue state used to instantiate claim C1's theorem: two commands
enqueued, the first completed, the second being processed. -/
def witnessQueueState : QueueState := ⟨[true, false], some 1, [0]⟩

/-- A click result that failed (e.g. selector not found), used to
instantiate claim C6's theorem. -/
def failClickResult : ActionResult :=
  { success := false,
    message := JVal.s "Click element with selector '#btn' not found",
    command := JVal.s "click" }

/-- An environment whose planner always asks for one click that fails. -/
def failingClickEnv : LoopEnv :=
  { planner := fun _ => [clickButtonCmd],
    exec := fun _ _ => .ok failClickResult,
    userInput := "click the button" }

/-- An environment whose planner emits an unknown `teleport` command
followed by a click, executed against the idle page oracle. -/
def teleportEnv : LoopEnv :=
  { planner := fun _ => [teleportCmd, clickButtonCmd],
    exec := fun _ c => browserExecute idlePage 30 c,
    userInput := "teleport somewhere" }

/-- The batch result produced for the unknown `teleport` command. -/
def teleportFailResult : ActionResult :=
  { success := false,
    message := JVal.s "Error executing teleport: Error executing teleport: Unknown command type: teleport",
    command := JVal.s "teleport" }

end BrowserAuto

namespace BrowserAuto

/-! # Theorems -/

/-! ## Claim C1: serial FIFO processing of the command queue -/

theorem firstUnprocessed_replicate (k m : Nat) :
    firstUnprocessed (List.replicate k true ++ List.replicate m false) =
      if m = 0 then none else some k := by
  induction k with
  | zero =>
    cases m with
    | zero => rfl
    | succ m => rfl
  | succ k ih =>
    rw [List.replicate_succ, List.cons_append]
    show (firstUnprocessed (List.replicate k true ++ List.replicate m false)).map
        (fun n => n + 1) = _
    rw [ih]
    cases m with
    | zero => rfl
    | succ m => rfl

theorem set_prefix_true (k m : Nat) :
    (List.replicate k true ++ List.replicate (m + 1) false).set k true =
      List.replicate (k + 1) true ++ List.replicate m false := by
  induction k with
  | zero => simp [List.replicate_succ]
  | succ k ih =>
    rw [List.replicate_succ, List.cons_append, List.set_cons_succ, ih]
    simp [List.replicate_succ]

theorem queueInv_init : QueueInv initQueue :=
  ⟨0, 0, rfl, rfl, fun _ h => nomatch h⟩

theorem queueInv_step {s t : QueueState} (hs : QueueInv s) (h : QueueStep s t) :
    QueueInv t := by
  obtain ⟨k, m, hf, hcm, hcur⟩ := hs
  cases h with
  | enqueue =>
    refine ⟨k, m + 1, ?_, hcm, ?_⟩
    · rw [hf, List.replicate_succ', ← List.append_assoc]
    · intro i hi
      exact ⟨(hcur i hi).1, Nat.succ_pos m⟩
  | pick i hc hfu =>
    rw [hf, firstUnprocessed_replicate] at hfu
    by_cases hm : m = 0
    · rw [if_pos hm] at hfu
      exact nomatch hfu
    · rw [if_neg hm] at hfu
      refine ⟨k, m, hf, hcm, ?_⟩
      intro j hj
      have hij : i = j := Option.some.inj hj
      have hik : k = i := Option.some.inj hfu
      exact ⟨by rw [← hij, ← hik], Nat.pos_of_ne_zero hm⟩
  | finish i hc =>
    obtain ⟨hik, hm⟩ := hcur i hc
    obtain ⟨m', rfl⟩ : ∃ m', m = m' + 1 :=
      ⟨m - 1, (Nat.succ_pred_eq_of_pos hm).symm⟩
    refine ⟨k + 1, m', ?_, ?_, fun _ h => nomatch h⟩
    · rw [hf, hik, set_prefix_true]
    · rw [hcm, hik, List.range_succ]

theorem queueInv_reachable {s : QueueState} (h : QueueReachable s) : QueueInv s := by
  induction h with
  | refl => exact queueInv_init
  | tail _ step ih => exact queueInv_step ih step

/-- C1: in every reachable state of a session's command queue, the
commands completed so far are exactly the oldest ones, in enqueue (FIFO)
order — the n-th completion is the n-th enqueued command — and whenever a
command is being processed it is the first unprocessed one in the queue.
At most one command is in flight at a time by construction of the worker
(`QueueStep` has a single `current` slot because the session owns one
worker coroutine guarded by `is_processing`). -/
theorem commandQueue_fifo_serial {s : QueueState} (h : QueueReachable s) :
    s.completed = List.range s.completed.length ∧
    ∀ i, s.current = some i → firstUnprocessed s.flags = some i := by
  obtain ⟨k, m, hf, hcm, hcur⟩ := queueInv_reachable h
  constructor
  · rw [hcm, List.length_range]
  · intro i hi
    obtain ⟨hik, hm⟩ := hcur i hi
    rw [hf, firstUnprocessed_replicate, if_neg (Nat.pos_iff_ne_zero.mp hm), hik]

/-- Witness for C1 at a concrete reachable state: enqueue, enqueue,
process the first command, pick up the second. -/
theorem commandQueue_fifo_serial_witness :
    witnessQueueState.completed = List.range witnessQueueState.completed.length ∧
    ∀ i, witnessQueueState.current = some i →
      firstUnprocessed witnessQueueState.flags = some i :=
  commandQueue_fifo_serial (by
    have s1 : QueueReachable ⟨[false], none, []⟩ :=
      Relation.ReflTransGen.tail Relation.ReflTransGen.refl (QueueStep.enqueue _)
    have s2 : QueueReachable ⟨[false, false], none, []⟩ :=
      s1.tail (QueueStep.enqueue _)
    have s3 : QueueReachable ⟨[false, false], some 0, []⟩ :=
      s2.tail (QueueStep.pick _ 0 rfl rfl)
    have s4 : QueueReachable ⟨[true, false], none, [0]⟩ :=
      s3.tail (QueueStep.finish _ 0 rfl)
    exact s4.tail (QueueStep.pick _ 1 rfl rfl))

/-! ## Claim C3: the never-resolved captcha wait (code bug evidence)

Running the task loop with `wait_for_captcha` enabled and a captcha that
is never resolved: the loop leaves through the 15-iteration bound after
28.5 logical seconds, with the captcha result still marked successful and
still waiting — the 300-second timeout branch (lines 450-466) is only
evaluated in the iteration that started the wait (every later waiting
iteration `continue`s at lines 327/335/350 before reaching it), and no
`ChallengeTimeoutError` exists anywhere in the source. -/

set_option maxRecDepth 40000 in
theorem captchaWait_bound_divergence :
    (runCommand captchaEnv).iterations = 15 ∧
    (runCommand captchaEnv).clock = 28500 ∧
    (runCommand captchaEnv).status = "success" ∧
    (runCommand captchaEnv).taskCompleted = false ∧
    (runCommand captchaEnv).results.all (fun r => r.success) = true ∧
    (runCommand captchaEnv).results.all
      (fun r => !(r.message == JVal.s captchaTimeoutMsg)) = true ∧
    (∃ p, (runCommand captchaEnv).explanation = p ++ maxStepsNote) := by
  exact ⟨rfl, rfl, rfl, rfl, rfl, rfl,
    ⟨generateExplanation captchaEnv.waitForCaptcha captchaEnv.userInput
        (runCommand captchaEnv).results, rfl⟩⟩

/-! ## Claim C4: idle sessions stop but stay in the registry (code bug
evidence)

After 1801 seconds without activity the worker stops the session
(lines 593-599), but no code ever schedules
`cleanup_inactive_sessions`, so the session is never removed: the status
query still finds it (with `is_active` false) instead of returning
not-found. One pass of the unscheduled cleanup coroutine would have
removed it, after which the query does return not-found. -/

theorem idleSession_remains_in_registry :
    getSessionStatus (workerPass (tick oneSessionRegistry 1801) "sid-1") "sid-1"
        = .ok (false, 0, 0) ∧
    getSessionStatus
        (cleanupPass (workerPass (tick oneSessionRegistry 1801) "sid-1")) "sid-1"
        = .error "Session sid-1 not found" := by
  exact ⟨rfl, rfl⟩

/-! ## Claim C2: the 15-iteration bound -/

/-- Counterexample to C2 as stated: a planner that never signals
completion but returns an empty batch makes the loop break at line 289 in
its first iteration — one iteration, not 15, and the final explanation is
not the maximum-steps report. -/
theorem emptyPlanner_stops_after_one_iteration :
    (∀ i, signalsCompletion (emptyPlannerEnv.planner i) = false) ∧
    (runCommand emptyPlannerEnv).iterations = 1 ∧
    (runCommand emptyPlannerEnv).explanation = "No actions were performed." :=
  ⟨fun _ => rfl, rfl, rfl⟩

theorem execBatch_captchaStart (wf : Bool) (ex : Nat → PyDict → Except PyError ActionResult)
    (clock : Nat) (cmds : List PyDict) :
    ∀ k : Nat, (execBatch wf ex clock k cmds).waiting = true →
      (execBatch wf ex clock k cmds).captchaStart = clock := by
  induction cmds with
  | nil => intro k h; simp [execBatch] at h
  | cons cmd rest ih =>
    intro k h
    by_cases hc : (dictGetD cmd "command_type" (.s "")) == JVal.s "wait_for_captcha"
    · by_cases hw : wf = true
      · simp [execBatch, hc, hw]
      · rw [Bool.not_eq_true] at hw
        subst hw
        simp only [execBatch] at h ⊢
        rw [if_pos hc, if_neg (by simp)] at h ⊢
        exact ih k h
    · by_cases hb : (!(toBatchResult (dictGetD cmd "command_type" (.s "")) (ex k cmd)).success
          && ((dictGetD cmd "command_type" (.s "")) == JVal.s "navigate"
            || (dictGetD cmd "command_type" (.s "")) == JVal.s "click"
            || (dictGetD cmd "command_type" (.s "")) == JVal.s "fill")) = true
      · simp [execBatch, hc, hb] at h
      · by_cases hn : ((dictGetD cmd "command_type" (.s "")) == JVal.s "navigate"
            && (toBatchResult (dictGetD cmd "command_type" (.s "")) (ex k cmd)).success) = true
        · simp [execBatch, hc, hb, hn] at h
        · simp only [execBatch] at h ⊢
          rw [if_neg hc, if_neg hb, if_neg hn] at h ⊢
          exact ih (k + 1) h

theorem iterResume_iterations (env : LoopEnv) (st : LoopState) :
    (iterResume env st).iterations = st.iterations := by
  unfold iterResume; split <;> rfl

theorem iterResume_taskCompleted (env : LoopEnv) (st : LoopState) :
    (iterResume env st).taskCompleted = st.taskCompleted := by
  unfold iterResume; split <;> rfl

theorem iterResume_planCalls (env : LoopEnv) (st : LoopState) :
    (iterResume env st).planCalls = st.planCalls := by
  unfold iterResume; split <;> rfl

theorem iterWaitingStep_no_break (env : LoopEnv) (st : LoopState) :
    (iterWaitingStep env st).1 = false := by
  simp only [iterWaitingStep, waitTimeoutStep]
  repeat' split
  all_goals rfl

theorem iterWaitingStep_iterations (env : LoopEnv) (st : LoopState) :
    (iterWaitingStep env st).2.iterations = st.iterations := by
  simp only [iterWaitingStep, waitTimeoutStep]
  repeat' split
  all_goals rfl

theorem iterWaitingStep_taskCompleted (env : LoopEnv) (st : LoopState) :
    (iterWaitingStep env st).2.taskCompleted = st.taskCompleted := by
  simp only [iterWaitingStep, waitTimeoutStep]
  repeat' split
  all_goals rfl

theorem iterBatchStep_iterations (env : LoopEnv) (st : LoopState) :
    (iterBatchStep env st).2.iterations = st.iterations := by
  simp only [iterBatchStep]
  repeat' split
  all_goals rfl

theorem signalsCompletion_parts {c : PyDict} {rest : List PyDict}
    (hns : signalsCompletion (c :: rest) = false) :
    (rest.isEmpty && dictGet c "command_type" == some (JVal.s "task_complete")) = false ∧
    (c :: rest).find? (fun cmd => (dictGetD cmd "task_completed" (.b false)).truthy) = none := by
  unfold signalsCompletion at hns
  rw [Bool.or_eq_false_iff] at hns
  obtain ⟨h1, h2⟩ := hns
  constructor
  · cases rest with
    | nil => simpa using h1
    | cons d ds => simp
  · rw [List.find?_eq_none]
    intro x hx
    rw [List.any_eq_false] at h2
    exact h2 x hx

theorem iterBatchStep_no_break (env : LoopEnv) (st : LoopState)
    (hne : env.planner st.planCalls ≠ [])
    (hns : signalsCompletion (env.planner st.planCalls) = false) :
    (iterBatchStep env st).1 = false := by
  simp only [iterBatchStep]
  cases hpl : env.planner st.planCalls with
  | nil => exact absurd hpl hne
  | cons c rest =>
    rw [hpl] at hns
    obtain ⟨hsingle, hfind⟩ := signalsCompletion_parts hns
    simp only [hsingle, hfind]
    rw [if_neg (by simp [hsingle])]
    by_cases how : (execBatch env.waitForCaptcha env.exec st.clock st.execCalls
        (c :: rest)).waiting = true
    · have hcs := execBatch_captchaStart env.waitForCaptcha env.exec st.clock
        (c :: rest) st.execCalls how
      simp only [how, hcs, if_pos]
      rw [if_neg]
      simp
    · rw [Bool.not_eq_true] at how
      simp only [how]
      simp

theorem iterBatchStep_taskCompleted (env : LoopEnv) (st : LoopState)
    (h : st.taskCompleted = false)
    (hne : env.planner st.planCalls ≠ [])
    (hns : signalsCompletion (env.planner st.planCalls) = false) :
    (iterBatchStep env st).2.taskCompleted = false := by
  simp only [iterBatchStep]
  cases hpl : env.planner st.planCalls with
  | nil => exact absurd hpl hne
  | cons c rest =>
    rw [hpl] at hns
    obtain ⟨hsingle, hfind⟩ := signalsCompletion_parts hns
    simp only [hsingle, hfind]
    rw [if_neg (by simp [hsingle])]
    by_cases how : (execBatch env.waitForCaptcha env.exec st.clock st.execCalls
        (c :: rest)).waiting = true
    · have hcs := execBatch_captchaStart env.waitForCaptcha env.exec st.clock
        (c :: rest) st.execCalls how
      simp only [how, hcs, if_pos]
      rw [if_neg]
      · simp [h]
      · simp
    · rw [Bool.not_eq_true] at how
      simp only [how]
      simp [h]

theorem iterStep_step (env : LoopEnv) (st : LoopState)
    (h : st.taskCompleted = false)
    (hne : env.planner st.planCalls ≠ [])
    (hns : signalsCompletion (env.planner st.planCalls) = false) :
    (iterStep env st).1 = false ∧
    (iterStep env st).2.taskCompleted = false ∧
    (iterStep env st).2.iterations = st.iterations + 1 := by
  unfold iterStep
  have hit : (iterResume env { st with iterations := st.iterations + 1 }).iterations
      = st.iterations + 1 := iterResume_iterations env _
  have htc : (iterResume env { st with iterations := st.iterations + 1 }).taskCompleted
      = false := by rw [iterResume_taskCompleted]; exact h
  have hpc : (iterResume env { st with iterations := st.iterations + 1 }).planCalls
      = st.planCalls := iterResume_planCalls env _
  by_cases hw : (iterResume env { st with iterations := st.iterations + 1 }).isWaiting = true
  · rw [if_pos hw]
    exact ⟨iterWaitingStep_no_break env _,
           by rw [iterWaitingStep_taskCompleted]; exact htc,
           by rw [iterWaitingStep_iterations]; exact hit⟩
  · rw [if_neg hw]
    refine ⟨iterBatchStep_no_break env _ ?_ ?_, ?_, ?_⟩
    · rw [hpc]; exact hne
    · rw [hpc]; exact hns
    · exact iterBatchStep_taskCompleted env _ htc (by rw [hpc]; exact hne)
        (by rw [hpc]; exact hns)
    · rw [iterBatchStep_iterations]; exact hit

theorem runLoop_drains (env : LoopEnv)
    (H : ∀ i, env.planner i ≠ [] ∧ signalsCompletion (env.planner i) = false) :
    ∀ (n : Nat) (st : LoopState), st.taskCompleted = false →
      st.iterations ≤ maxIterations → maxIterations ≤ st.iterations + n →
      (runLoop env n st).iterations = maxIterations ∧
      (runLoop env n st).taskCompleted = false := by
  intro n
  induction n with
  | zero =>
    intro st h1 h2 h3
    have heq : st.iterations = maxIterations := Nat.le_antisymm h2 (by simpa using h3)
    exact ⟨heq, h1⟩
  | succ n ih =>
    intro st h1 h2 h3
    rw [runLoop]
    by_cases hlt : st.iterations < maxIterations
    · rw [if_pos ⟨h1, hlt⟩]
      obtain ⟨hb, ht, hits⟩ := iterStep_step env st h1 (H st.planCalls).1 (H st.planCalls).2
      simp only [hb, Bool.false_eq_true, if_false]
      exact ih _ ht (by rw [hits]; exact hlt) (by rw [hits]; omega)
    · have heq : st.iterations = maxIterations := Nat.le_antisymm h2 (Nat.not_lt.mp hlt)
      rw [if_neg (fun hcon => hlt hcon.2)]
      exact ⟨heq, h1⟩

/-- C2 (amended): whenever the planner always returns a nonempty batch and
never signals completion (no lone `task_complete` command, no truthy
`task_completed` flag), the task loop runs exactly 15 iterations — the
configured `max_iterations` — and the final explanation ends with
"The task execution reached its maximum number of steps.". The amendment
over the claim as frozen: a planner that returns an empty batch (which
also never signals completion) makes the loop break in its first
iteration without the maximum-steps report, see the counterexample. -/
theorem taskLoop_exhausts_maxIterations (env : LoopEnv)
    (H : ∀ i, env.planner i ≠ [] ∧ signalsCompletion (env.planner i) = false) :
    (runCommand env).iterations = maxIterations ∧
    ∃ p, (runCommand env).explanation = p ++ maxStepsNote := by
  obtain ⟨h15, hf⟩ := runLoop_drains env H (maxIterations + 1) initLoopState rfl
    (by decide) (by decide)
  constructor
  · exact h15
  · refine ⟨generateExplanation env.waitForCaptcha env.userInput
      (runLoop env (maxIterations + 1) initLoopState).chain, ?_⟩
    show (finishCommand env (runLoop env (maxIterations + 1) initLoopState)).explanation = _
    unfold finishCommand
    rw [hf]
    simp only [Bool.false_and, Bool.false_eq_true, if_false]
    rw [if_pos (by rw [h15])]

/-- Witness for C2's amended theorem: a planner that always asks for one
`wait` action. -/
theorem taskLoop_exhausts_maxIterations_witness :
    (runCommand waitPlannerEnv).iterations = maxIterations ∧
    ∃ p, (runCommand waitPlannerEnv).explanation = p ++ maxStepsNote :=
  taskLoop_exhausts_maxIterations waitPlannerEnv
    (fun _ => ⟨List.cons_ne_nil _ _, rfl⟩)

/-! ## Claim C7: unknown action kinds -/

/-- Counterexample to C7 as stated: executing an action of kind
`"teleport"` raises `ValueError` (line 483), which the generic handler at
line 495 wraps as `BrowserAutomationError` — there is no
`UnknownActionError` anywhere in the source. -/
theorem teleport_error_kind :
    browserExecute idlePage 30 teleportCmd =
      .error ⟨"BrowserAutomationError",
              "Error executing teleport: Unknown command type: teleport"⟩ :=
  rfl

/-! ## Claim C8: navigate semantics -/

/-- Counterexample to C8 as stated: when the driver-level navigation call
itself times out, `page.goto` raises `PlaywrightTimeoutError` and the
handler at line 485 turns it into `TimeoutError` — the action fails, but
not with `NavigationError`. -/
theorem navigate_timeout_error_kind :
    browserExecute timeoutPage 30 navExampleCmd =
      .error ⟨"TimeoutError",
              "Timeout error executing navigate: Timeout 30000ms exceeded."⟩ :=
  rfl

/-! ## Claim C10: normalization of planner command fields -/

/-- Counterexample to C10 as stated: a top-level `task_summary` of `"true"`
is attached to the last returned command at line 301 after the
normalization loop has already run, so the command handed to the
dispatcher still carries the string `"true"`. -/
theorem normalization_misses_task_summary :
    getBrowserCommands summaryResponse (some examplePageStructure) =
      [[("command_type", JVal.s "wait"),
        ("task_completed", JVal.b true),
        ("task_summary", JVal.s "true")]] ∧
    allFieldsNormalized
      (getBrowserCommands summaryResponse (some examplePageStructure)) = false :=
  ⟨rfl, rfl⟩


/-! ## Shared lemmas about `execute_commands` and the task loop -/

theorem execBatch_split (wf : Bool) (ex : Nat → PyDict → Except PyError ActionResult)
    (clock : Nat) (pre rest : List PyDict) :
    ∀ k : Nat, (execBatch wf ex clock k (pre ++ rest)).results.length ≤ pre.length ∨
      ∃ (preRes : List ActionResult) (j : Nat), preRes.length = pre.length ∧
        execBatch wf ex clock k (pre ++ rest) =
          ⟨preRes ++ (execBatch wf ex clock j rest).results,
           (execBatch wf ex clock j rest).waiting,
           (execBatch wf ex clock j rest).captchaStart,
           (execBatch wf ex clock j rest).calls⟩ := by
  induction pre with
  | nil =>
    intro k
    right
    exact ⟨[], k, rfl, rfl⟩
  | cons p pre ih =>
    intro k
    rw [List.cons_append]
    by_cases hc : (dictGetD p "command_type" (.s "")) == JVal.s "wait_for_captcha"
    · by_cases hw : wf = true
      · left
        simp [execBatch, hc, hw]
      · rw [Bool.not_eq_true] at hw
        subst hw
        rcases ih k with hle | ⟨preRes, j, hlen, heq⟩
        · left
          simp only [execBatch]
          rw [if_pos hc, if_neg (by simp)]
          simpa using Nat.succ_le_succ hle
        · right
          refine ⟨(⟨false, JVal.s captchaDisabledMsg,
              dictGetD p "command_type" (JVal.s ""), false, none, none, false, none, none⟩ :
              ActionResult) :: preRes, j, by simp [hlen], ?_⟩
          simp only [execBatch]
          rw [if_pos hc, if_neg (by simp)]
          rw [heq]
          simp
    · by_cases hb : (!(toBatchResult (dictGetD p "command_type" (.s "")) (ex k p)).success
          && ((dictGetD p "command_type" (.s "")) == JVal.s "navigate"
            || (dictGetD p "command_type" (.s "")) == JVal.s "click"
            || (dictGetD p "command_type" (.s "")) == JVal.s "fill")) = true
      · left
        simp only [execBatch]
        rw [if_neg hc, if_pos hb]
        simp
      · by_cases hn : ((dictGetD p "command_type" (.s "")) == JVal.s "navigate"
            && (toBatchResult (dictGetD p "command_type" (.s "")) (ex k p)).success) = true
        · left
          simp only [execBatch]
          rw [if_neg hc, if_neg hb, if_pos hn]
          simp
        · rcases ih (k + 1) with hle | ⟨preRes, j, hlen, heq⟩
          · left
            simp only [execBatch]
            rw [if_neg hc, if_neg hb, if_neg hn]
            simpa using Nat.succ_le_succ hle
          · right
            refine ⟨toBatchResult (dictGetD p "command_type" (.s "")) (ex k p) :: preRes,
              j, by simp [hlen], ?_⟩
            simp only [execBatch]
            rw [if_neg hc, if_neg hb, if_neg hn]
            rw [heq]
            simp

theorem execBatch_results_ne_nil (wf : Bool) (ex : Nat → PyDict → Except PyError ActionResult)
    (clock k : Nat) (cmd : PyDict) (rest : List PyDict) :
    (execBatch wf ex clock k (cmd :: rest)).results ≠ [] := by
  by_cases hc : (dictGetD cmd "command_type" (.s "")) == JVal.s "wait_for_captcha"
  · by_cases hw : wf = true
    · simp [execBatch, hc, hw]
    · rw [Bool.not_eq_true] at hw
      subst hw
      simp only [execBatch]
      rw [if_pos hc, if_neg (by simp)]
      simp
  · by_cases hb : (!(toBatchResult (dictGetD cmd "command_type" (.s "")) (ex k cmd)).success
        && ((dictGetD cmd "command_type" (.s "")) == JVal.s "navigate"
          || (dictGetD cmd "command_type" (.s "")) == JVal.s "click"
          || (dictGetD cmd "command_type" (.s "")) == JVal.s "fill")) = true
    · simp [execBatch, hc, hb]
    · by_cases hn : ((dictGetD cmd "command_type" (.s "")) == JVal.s "navigate"
          && (toBatchResult (dictGetD cmd "command_type" (.s "")) (ex k cmd)).success) = true
      · simp [execBatch, hc, hb, hn]
      · simp only [execBatch]
        rw [if_neg hc, if_neg hb, if_neg hn]
        simp

theorem iterStep_not_waiting (env : LoopEnv) (st : LoopState) (hw : st.isWaiting = false) :
    iterStep env st = iterBatchStep env { st with iterations := st.iterations + 1 } := by
  unfold iterStep iterResume
  simp [hw]

theorem iterBatchStep_chain (env : LoopEnv) (st : LoopState)
    (hne : env.planner st.planCalls ≠ [])
    (hns : signalsCompletion (env.planner st.planCalls) = false) :
    (iterBatchStep env st).2.chain =
      st.chain ++ (execBatch env.waitForCaptcha env.exec st.clock st.execCalls
        (env.planner st.planCalls)).results := by
  simp only [iterBatchStep]
  cases hpl : env.planner st.planCalls with
  | nil => exact absurd hpl hne
  | cons c rest =>
    rw [hpl] at hns
    obtain ⟨hsingle, hfind⟩ := signalsCompletion_parts hns
    simp only [hsingle, hfind]
    rw [if_neg (by simp [hsingle])]
    by_cases how : (execBatch env.waitForCaptcha env.exec st.clock st.execCalls
        (c :: rest)).waiting = true
    · have hcs := execBatch_captchaStart env.waitForCaptcha env.exec st.clock
        (c :: rest) st.execCalls how
      simp only [how, hcs, if_pos]
      rw [if_neg]
      all_goals simp
    · rw [Bool.not_eq_true] at how
      simp only [how]
      simp

theorem browserExecute_unknown (pg : PageOracle) (tmo : Nat) (cmd : PyDict)
    (hunk : ∀ t ∈ knownCommandTypes,
      (((dictGet cmd "command_type").getD JVal.null) == JVal.s t) = false) :
    browserExecute pg tmo cmd =
      .error ⟨"BrowserAutomationError",
        "Error executing " ++ ((dictGet cmd "command_type").getD JVal.null).pyStr
          ++ ": Unknown command type: "
          ++ ((dictGet cmd "command_type").getD JVal.null).pyStr⟩ := by
  have h01 := hunk "navigate" (by simp [knownCommandTypes])
  have h02 := hunk "search" (by simp [knownCommandTypes])
  have h03 := hunk "click" (by simp [knownCommandTypes])
  have h04 := hunk "fill" (by simp [knownCommandTypes])
  have h05 := hunk "wait" (by simp [knownCommandTypes])
  have h06 := hunk "wait_for_captcha" (by simp [knownCommandTypes])
  have h07 := hunk "wait_for_page_load" (by simp [knownCommandTypes])
  have h08 := hunk "extract_text" (by simp [knownCommandTypes])
  have h09 := hunk "extract_table" (by simp [knownCommandTypes])
  have h10 := hunk "extract_links" (by simp [knownCommandTypes])
  have h11 := hunk "extract_elements" (by simp [knownCommandTypes])
  have h12 := hunk "extract_json" (by simp [knownCommandTypes])
  have h13 := hunk "press" (by simp [knownCommandTypes])
  simp only [browserExecute]
  rw [if_neg (by simp [h01]), if_neg (by simp [h02]), if_neg (by simp [h03]),
    if_neg (by simp [h04]), if_neg (by simp [h05]), if_neg (by simp [h06]),
    if_neg (by simp [h07]), if_neg (by simp [h08]), if_neg (by simp [h09]),
    if_neg (by simp [h10]), if_neg (by simp [h11]), if_neg (by simp [h12]),
    if_neg (by simp [h13])]

/-! ## Claim C5: successful navigate truncates the batch -/

/-- C5: when a batch command at some position is a `navigate` and its
execution succeeds, `execute_commands` stops processing the rest of the
batch: the result list ends right after that command (mirrors the
`needs_navigation` break at `browser_session.py` lines 425-433). -/
theorem navigate_success_truncates_batch (wf : Bool)
    (ex : Nat → PyDict → Except PyError ActionResult) (clock k : Nat)
    (pre post : List PyDict) (cmd : PyDict) (r : ActionResult)
    (hnav : dictGetD cmd "command_type" (JVal.s "") = JVal.s "navigate")
    (hr : (execBatch wf ex clock k (pre ++ cmd :: post)).results.get? pre.length = some r)
    (hs : r.success = true) :
    (execBatch wf ex clock k (pre ++ cmd :: post)).results.length = pre.length + 1 := by
  rcases execBatch_split wf ex clock pre (cmd :: post) k with hle | ⟨preRes, j, hlen, heq⟩
  · rw [List.get?_eq_none.mpr hle] at hr
    cases hr
  · rw [heq] at hr ⊢
    simp only at hr ⊢
    rw [List.get?_append_right (by omega)] at hr
    rw [show pre.length - preRes.length = 0 by omega] at hr
    have hc : ((dictGetD cmd "command_type" (JVal.s "")) == JVal.s "wait_for_captcha")
        = false := by rw [hnav]; rfl
    have ha : ((dictGetD cmd "command_type" (JVal.s "")) == JVal.s "navigate")
        = true := by rw [hnav]; rfl
    by_cases hb : (!(toBatchResult (dictGetD cmd "command_type" (JVal.s "")) (ex j cmd)).success
        && ((dictGetD cmd "command_type" (JVal.s "")) == JVal.s "navigate"
          || (dictGetD cmd "command_type" (JVal.s "")) == JVal.s "click"
          || (dictGetD cmd "command_type" (JVal.s "")) == JVal.s "fill")) = true
    · exfalso
      simp only [execBatch] at hr
      rw [if_neg (by simp [hc]), if_pos hb] at hr
      have hr0 : r = toBatchResult (dictGetD cmd "command_type" (JVal.s "")) (ex j cmd) :=
        (Option.some.inj hr).symm
      rw [ha] at hb
      simp at hb
      rw [← hr0] at hb
      rw [hs] at hb
      cases hb
    · by_cases hn : ((dictGetD cmd "command_type" (JVal.s "")) == JVal.s "navigate"
          && (toBatchResult (dictGetD cmd "command_type" (JVal.s "")) (ex j cmd)).success) = true
      · simp only [execBatch]
        rw [if_neg (by simp [hc]), if_neg hb, if_pos hn]
        simp [hlen]
      · exfalso
        rw [Bool.not_eq_true] at hb hn
        rw [ha] at hb hn
        simp at hb hn
        rw [hb] at hn
        cases hn

theorem navigate_success_truncates_batch_witness :
    (execBatch false (fun _ _ => Except.ok
        { success := true, message := JVal.s "ok", command := JVal.s "navigate" })
        0 0 [navExampleCmd, clickButtonCmd]).results.length = List.length ([] : List PyDict) + 1 :=
  navigate_success_truncates_batch false
    (fun _ _ => Except.ok { success := true, message := JVal.s "ok", command := JVal.s "navigate" })
    0 0 [] [clickButtonCmd] navExampleCmd
    { success := true, message := JVal.s "ok", command := JVal.s "navigate" }
    rfl rfl rfl

/-! ## Claim C6: critical failure truncates the batch, loop continues -/

/-- C6: when a critical action (`navigate`, `click` or `fill`) fails,
`execute_commands` truncates the batch at that command, the failed
result still lands in the session's conversation chain, and the task
loop moves on to the next iteration instead of breaking (lines 414-423
and 556-571 of `browser_session.py`). -/
theorem criticalFailure_truncates_continues (env : LoopEnv) (st : LoopState)
    (pre post : List PyDict) (cmd : PyDict) (r : ActionResult)
    (hw : st.isWaiting = false)
    (hpl : env.planner st.planCalls = pre ++ cmd :: post)
    (hns : signalsCompletion (pre ++ cmd :: post) = false)
    (hcrit : dictGetD cmd "command_type" (JVal.s "") = JVal.s "navigate"
      ∨ dictGetD cmd "command_type" (JVal.s "") = JVal.s "click"
      ∨ dictGetD cmd "command_type" (JVal.s "") = JVal.s "fill")
    (hr : (execBatch env.waitForCaptcha env.exec st.clock st.execCalls
        (pre ++ cmd :: post)).results.get? pre.length = some r)
    (hf : r.success = false) :
    (execBatch env.waitForCaptcha env.exec st.clock st.execCalls
        (pre ++ cmd :: post)).results.length = pre.length + 1 ∧
    r ∈ (iterStep env st).2.chain ∧
    (iterStep env st).1 = false := by
  have hc : ((dictGetD cmd "command_type" (JVal.s "")) == JVal.s "wait_for_captcha")
      = false := by rcases hcrit with h | h | h <;> rw [h] <;> rfl
  have hcr : ((dictGetD cmd "command_type" (JVal.s "")) == JVal.s "navigate"
      || (dictGetD cmd "command_type" (JVal.s "")) == JVal.s "click"
      || (dictGetD cmd "command_type" (JVal.s "")) == JVal.s "fill") = true := by
    rcases hcrit with h | h | h <;> rw [h] <;> rfl
  have htrunc : (execBatch env.waitForCaptcha env.exec st.clock st.execCalls
      (pre ++ cmd :: post)).results.length = pre.length + 1 := by
    rcases execBatch_split env.waitForCaptcha env.exec st.clock pre (cmd :: post)
        st.execCalls with hle | ⟨preRes, j, hlen, heq⟩
    · rw [List.get?_eq_none.mpr hle] at hr
      cases hr
    · rw [heq] at hr ⊢
      simp only at hr ⊢
      rw [List.get?_append_right (by omega)] at hr
      rw [show pre.length - preRes.length = 0 by omega] at hr
      by_cases hb : (!(toBatchResult (dictGetD cmd "command_type" (JVal.s ""))
          (env.exec j cmd)).success
          && ((dictGetD cmd "command_type" (JVal.s "")) == JVal.s "navigate"
            || (dictGetD cmd "command_type" (JVal.s "")) == JVal.s "click"
            || (dictGetD cmd "command_type" (JVal.s "")) == JVal.s "fill")) = true
      · simp only [execBatch]
        rw [if_neg (by simp [hc]), if_pos hb]
        simp [hlen]
      · exfalso
        rw [Bool.not_eq_true] at hb
        rw [hcr] at hb
        simp at hb
        by_cases hn : ((dictGetD cmd "command_type" (JVal.s "")) == JVal.s "navigate"
            && (toBatchResult (dictGetD cmd "command_type" (JVal.s ""))
              (env.exec j cmd)).success) = true
        · simp only [execBatch] at hr
          rw [if_neg (by simp [hc]), if_neg (by simp [hb, hcr]), if_pos hn] at hr
          have hr0 : r = toBatchResult (dictGetD cmd "command_type" (JVal.s ""))
              (env.exec j cmd) := (Option.some.inj hr).symm
          rw [← hr0, hf] at hb
          cases hb
        · simp only [execBatch] at hr
          rw [if_neg (by simp [hc]), if_neg (by simp [hb, hcr]), if_neg hn] at hr
          have hr0 : r = toBatchResult (dictGetD cmd "command_type" (JVal.s ""))
              (env.exec j cmd) := (Option.some.inj hr).symm
          rw [← hr0, hf] at hb
          cases hb
  refine ⟨htrunc, ?_, ?_⟩
  · rw [iterStep_not_waiting env st hw]
    rw [iterBatchStep_chain env _ (by rw [hpl]; simp) (by rw [hpl]; exact hns)]
    have hmem : r ∈ (execBatch env.waitForCaptcha env.exec st.clock st.execCalls
        (pre ++ cmd :: post)).results := List.get?_mem hr
    rw [show env.planner ({ st with iterations := st.iterations + 1 } : LoopState).planCalls
        = pre ++ cmd :: post from hpl]
    exact List.mem_append_right _ hmem
  · rw [iterStep_not_waiting env st hw]
    exact iterBatchStep_no_break env _ (by rw [hpl]; simp) (by rw [hpl]; exact hns)

theorem criticalFailure_truncates_continues_witness :
    (execBatch failingClickEnv.waitForCaptcha failingClickEnv.exec initLoopState.clock
        initLoopState.execCalls ([] ++ clickButtonCmd :: [])).results.length = 0 + 1 ∧
    failClickResult ∈ (iterStep failingClickEnv initLoopState).2.chain ∧
    (iterStep failingClickEnv initLoopState).1 = false :=
  criticalFailure_truncates_continues failingClickEnv initLoopState [] [] clickButtonCmd
    failClickResult rfl rfl rfl (Or.inr (Or.inl rfl)) rfl rfl

/-! ## Claim C7: unknown command type -/

/-- C7 (amended): a command whose `command_type` matches no dispatcher
branch produces a failed result whose message wraps the inner
`ValueError` text twice as a `BrowserAutomationError` (not an
`UnknownActionError`, which does not exist in the code); the result
joins the conversation chain, the loop continues, and the batch is not
truncated (lines 476-503 of `browser_service.py`). -/
theorem unknownAction_failure_loop_continues (env : LoopEnv) (st : LoopState)
    (pgs : Nat → PageOracle) (tms : Nat → Nat)
    (pre post : List PyDict) (cmd : PyDict) (r : ActionResult)
    (hx : ∀ k c, env.exec k c = browserExecute (pgs k) (tms k) c)
    (hw : st.isWaiting = false)
    (hpl : env.planner st.planCalls = pre ++ cmd :: post)
    (hns : signalsCompletion (pre ++ cmd :: post) = false)
    (hunk : ∀ t ∈ knownCommandTypes,
      (((dictGet cmd "command_type").getD JVal.null) == JVal.s t) = false)
    (hr : (execBatch env.waitForCaptcha env.exec st.clock st.execCalls
        (pre ++ cmd :: post)).results.get? pre.length = some r) :
    r.success = false ∧
    r.message = JVal.s ("Error executing "
        ++ (dictGetD cmd "command_type" (JVal.s "")).pyStr ++ ": "
        ++ ("Error executing " ++ ((dictGet cmd "command_type").getD JVal.null).pyStr
          ++ ": Unknown command type: "
          ++ ((dictGet cmd "command_type").getD JVal.null).pyStr)) ∧
    r ∈ (iterStep env st).2.chain ∧
    (iterStep env st).1 = false ∧
    (post ≠ [] → pre.length + 2 ≤ (execBatch env.waitForCaptcha env.exec st.clock
        st.execCalls (pre ++ cmd :: post)).results.length) := by
  have key : ∀ t, t ∈ knownCommandTypes →
      ((dictGetD cmd "command_type" (JVal.s "")) == JVal.s t) = false := by
    intro t ht
    unfold dictGetD
    cases hd : dictGet cmd "command_type" with
    | none =>
      simp only [Option.getD_none]
      simp [knownCommandTypes] at ht
      rcases ht with rfl | rfl | rfl | rfl | rfl | rfl | rfl | rfl | rfl | rfl | rfl | rfl | rfl
        <;> rfl
    | some v =>
      have h := hunk t ht
      rw [hd] at h
      simpa using h
  have hc := key "wait_for_captcha" (by simp [knownCommandTypes])
  have hNav := key "navigate" (by simp [knownCommandTypes])
  have hClick := key "click" (by simp [knownCommandTypes])
  have hFill := key "fill" (by simp [knownCommandTypes])
  rcases execBatch_split env.waitForCaptcha env.exec st.clock pre (cmd :: post)
      st.execCalls with hle | ⟨preRes, j, hlen, heq⟩
  · rw [List.get?_eq_none.mpr hle] at hr
    cases hr
  · have hexecj : env.exec j cmd = .error ⟨"BrowserAutomationError",
        "Error executing " ++ ((dictGet cmd "command_type").getD JVal.null).pyStr
          ++ ": Unknown command type: "
          ++ ((dictGet cmd "command_type").getD JVal.null).pyStr⟩ := by
      rw [hx j cmd]
      exact browserExecute_unknown (pgs j) (tms j) cmd hunk
    have hr0eq : toBatchResult (dictGetD cmd "command_type" (JVal.s "")) (env.exec j cmd)
        = { success := false,
            message := JVal.s ("Error executing "
              ++ (dictGetD cmd "command_type" (JVal.s "")).pyStr ++ ": "
              ++ ("Error executing " ++ ((dictGet cmd "command_type").getD JVal.null).pyStr
                ++ ": Unknown command type: "
                ++ ((dictGet cmd "command_type").getD JVal.null).pyStr)),
            command := dictGetD cmd "command_type" (JVal.s "") } := by
      rw [hexecj]
      simp [toBatchResult]
    have hb : (!(toBatchResult (dictGetD cmd "command_type" (JVal.s ""))
        (env.exec j cmd)).success
        && ((dictGetD cmd "command_type" (JVal.s "")) == JVal.s "navigate"
          || (dictGetD cmd "command_type" (JVal.s "")) == JVal.s "click"
          || (dictGetD cmd "command_type" (JVal.s "")) == JVal.s "fill")) = false := by
      rw [hNav, hClick, hFill]
      simp
    have hn : ((dictGetD cmd "command_type" (JVal.s "")) == JVal.s "navigate"
        && (toBatchResult (dictGetD cmd "command_type" (JVal.s ""))
          (env.exec j cmd)).success) = false := by
      rw [hNav]
      simp
    have hsuffix : execBatch env.waitForCaptcha env.exec st.clock j (cmd :: post) =
        ⟨toBatchResult (dictGetD cmd "command_type" (JVal.s "")) (env.exec j cmd)
            :: (execBatch env.waitForCaptcha env.exec st.clock (j + 1) post).results,
          (execBatch env.waitForCaptcha env.exec st.clock (j + 1) post).waiting,
          (execBatch env.waitForCaptcha env.exec st.clock (j + 1) post).captchaStart,
          (execBatch env.waitForCaptcha env.exec st.clock (j + 1) post).calls⟩ := by
      simp only [execBatch]
      rw [if_neg (by simp [hc]), if_neg (by simp [hb]), if_neg (by simp [hn])]
    have hreq : r = toBatchResult (dictGetD cmd "command_type" (JVal.s ""))
        (env.exec j cmd) := by
      rw [heq] at hr
      simp only at hr
      rw [List.get?_append_right (by omega)] at hr
      rw [show pre.length - preRes.length = 0 by omega] at hr
      rw [hsuffix] at hr
      exact (Option.some.inj hr).symm
    refine ⟨?_, ?_, ?_, ?_, ?_⟩
    · rw [hreq, hr0eq]
    · rw [hreq, hr0eq]
    · rw [iterStep_not_waiting env st hw]
      rw [iterBatchStep_chain env _ (by rw [hpl]; simp) (by rw [hpl]; exact hns)]
      have hmem : r ∈ (execBatch env.waitForCaptcha env.exec st.clock st.execCalls
          (pre ++ cmd :: post)).results := List.get?_mem hr
      rw [show env.planner ({ st with iterations := st.iterations + 1 } : LoopState).planCalls
          = pre ++ cmd :: post from hpl]
      exact List.mem_append_right _ hmem
    · rw [iterStep_not_waiting env st hw]
      exact iterBatchStep_no_break env _ (by rw [hpl]; simp) (by rw [hpl]; exact hns)
    · intro hpost
      rw [heq]
      simp only
      rw [hsuffix]
      cases hpo : post with
      | nil => exact absurd hpo hpost
      | cons q qs =>
        have hne2 := execBatch_results_ne_nil env.waitForCaptcha env.exec st.clock
          (j + 1) q qs
        have : 0 < (execBatch env.waitForCaptcha env.exec st.clock (j + 1)
            (q :: qs)).results.length := List.length_pos.mpr hne2
        simp only [List.length_append, List.length_cons]
        omega

theorem unknownAction_failure_loop_continues_witness :
    teleportFailResult.success = false ∧
    teleportFailResult.message = JVal.s "Error executing teleport: Error executing teleport: Unknown command type: teleport" ∧
    teleportFailResult ∈ (iterStep teleportEnv initLoopState).2.chain ∧
    (iterStep teleportEnv initLoopState).1 = false ∧
    ([clickButtonCmd] ≠ ([] : List PyDict) → 0 + 2 ≤
      (execBatch teleportEnv.waitForCaptcha teleportEnv.exec initLoopState.clock
        initLoopState.execCalls [teleportCmd, clickButtonCmd]).results.length) :=
  unknownAction_failure_loop_continues teleportEnv initLoopState
    (fun _ => idlePage) (fun _ => 30) [] [clickButtonCmd] teleportCmd teleportFailResult
    (fun _ _ => rfl) rfl rfl rfl
    (by
      intro t ht
      simp [knownCommandTypes] at ht
      rcases ht with rfl | rfl | rfl | rfl | rfl | rfl | rfl | rfl | rfl | rfl | rfl | rfl | rfl
        <;> rfl)
    rfl

/-! ## Claim C8: navigate error handling -/

/-- C8 (amended): `navigate` prefixes `https://` to a URL lacking a
scheme, reports success when the driver returns an ok response, raises
`NavigationError` when the response is missing or not ok, raises
`TimeoutError` (not `NavigationError`) when the driver call times out,
and wraps other exceptions as `BrowserAutomationError` (lines 28-58 and
470-503 of `browser_service.py`). -/
theorem navigate_execute_spec (pg : PageOracle) (tmo : Nat) (cmd : PyDict) (u : String)
    (hact : dictGet cmd "command_type" = some (JVal.s "navigate"))
    (hurl : dictGetD cmd "url" (JVal.s "") = JVal.s u) :
    ((pyStarts u "http://" = false ∧ pyStarts u "https://" = false) →
      normalizeUrl u = "https://" ++ u) ∧
    (match pg.goto (normalizeUrl u) with
     | .resp (some resp) =>
       if resp.ok = true then
         browserExecute pg tmo cmd = .ok
           { success := true,
             message := JVal.s ("Successfully navigated to " ++ normalizeUrl u),
             command := JVal.s "navigate" }
       else
         browserExecute pg tmo cmd = .error ⟨"NavigationError",
           "Navigation to " ++ normalizeUrl u ++ " failed or timed out"⟩
     | .resp none =>
       browserExecute pg tmo cmd = .error ⟨"NavigationError",
         "Navigation to " ++ normalizeUrl u ++ " failed or timed out"⟩
     | .timeout m =>
       browserExecute pg tmo cmd = .error ⟨"TimeoutError",
         "Timeout error executing navigate: " ++ m⟩
     | .exc m =>
       browserExecute pg tmo cmd = .error ⟨"BrowserAutomationError",
         "Error executing navigate: " ++ m⟩) := by
  have ha : ((dictGet cmd "command_type").getD JVal.null == JVal.s "navigate") = true := by
    rw [hact]; rfl
  constructor
  · intro h
    unfold normalizeUrl
    rw [if_neg (by simp [h.1, h.2])]
  · have hbody : browserExecute pg tmo cmd =
        (match pg.goto (normalizeUrl u) with
         | .resp (some r) =>
           if r.ok = true then
             .ok { success := true,
                   message := JVal.s ("Successfully navigated to " ++ normalizeUrl u),
                   command := (dictGet cmd "command_type").getD JVal.null }
           else
             .error ⟨"NavigationError",
               "Navigation to " ++ normalizeUrl u ++ " failed or timed out"⟩
         | .resp none =>
           .error ⟨"NavigationError",
             "Navigation to " ++ normalizeUrl u ++ " failed or timed out"⟩
         | .timeout m =>
           .error ⟨"TimeoutError", "Timeout error executing navigate: " ++ m⟩
         | .exc m =>
           .error ⟨"BrowserAutomationError", "Error executing navigate: " ++ m⟩) := by
      simp only [browserExecute]
      rw [if_pos ha, hurl]
    rw [hbody]
    cases hg : pg.goto (normalizeUrl u) with
    | resp o =>
      cases o with
      | some resp =>
        by_cases hok : resp.ok = true
        · simp [hok, hact]
        · simp [hok]
      | none => rfl
    | timeout m => rfl
    | exc m => rfl

theorem navigate_execute_spec_witness :
    ((pyStarts "example.com" "http://" = false ∧ pyStarts "example.com" "https://" = false) →
      normalizeUrl "example.com" = "https://" ++ "example.com") ∧
    (match idlePage.goto (normalizeUrl "example.com") with
     | .resp (some resp) =>
       if resp.ok = true then
         browserExecute idlePage 30 navExampleCmd = .ok
           { success := true,
             message := JVal.s ("Successfully navigated to " ++ normalizeUrl "example.com"),
             command := JVal.s "navigate" }
       else
         browserExecute idlePage 30 navExampleCmd = .error ⟨"NavigationError",
           "Navigation to " ++ normalizeUrl "example.com" ++ " failed or timed out"⟩
     | .resp none =>
       browserExecute idlePage 30 navExampleCmd = .error ⟨"NavigationError",
         "Navigation to " ++ normalizeUrl "example.com" ++ " failed or timed out"⟩
     | .timeout m =>
       browserExecute idlePage 30 navExampleCmd = .error ⟨"TimeoutError",
         "Timeout error executing navigate: " ++ m⟩
     | .exc m =>
       browserExecute idlePage 30 navExampleCmd = .error ⟨"BrowserAutomationError",
         "Error executing navigate: " ++ m⟩) :=
  navigate_execute_spec idlePage 30 navExampleCmd "example.com" rfl rfl

/-! ## Claim C9: wait_for_page_load soft failure -/

/-- C9: `wait_for_page_load` never fails: it returns a successful result
whether or not the two load-state waits time out, attaching a warning
instead of an error on timeout (lines 330-360 of
`browser_service.py`). -/
theorem waitForPageLoad_soft_failure (pg : PageOracle) (tmo : Nat) (cmd : PyDict)
    (hact : dictGet cmd "command_type" = some (JVal.s "wait_for_page_load")) :
    (∃ res, browserExecute pg tmo cmd = Except.ok res ∧ res.success = true) ∧
    (match pg.loadState "domcontentloaded" (dictGetD cmd "timeout" (JVal.i 10000)) with
     | .timeout m =>
       browserExecute pg tmo cmd = .ok
         { success := true,
           message := JVal.s "Page load wait timed out, but continuing",
           command := JVal.s "wait_for_page_load",
           warning := some ("Timeout waiting for page to load completely: " ++ m) }
     | .done =>
       match pg.loadState "networkidle" (dictGetD cmd "timeout" (JVal.i 10000)) with
       | .timeout m =>
         browserExecute pg tmo cmd = .ok
           { success := true,
             message := JVal.s "Page load wait timed out, but continuing",
             command := JVal.s "wait_for_page_load",
             warning := some ("Timeout waiting for page to load completely: " ++ m) }
       | .done =>
         browserExecute pg tmo cmd = .ok
           { success := true,
             message := JVal.s "Page fully loaded",
             command := JVal.s "wait_for_page_load" }) := by
  have h1 : ((dictGet cmd "command_type").getD JVal.null == JVal.s "navigate") = false := by
    rw [hact]; rfl
  have h2 : ((dictGet cmd "command_type").getD JVal.null == JVal.s "search") = false := by
    rw [hact]; rfl
  have h3 : ((dictGet cmd "command_type").getD JVal.null == JVal.s "click") = false := by
    rw [hact]; rfl
  have h4 : ((dictGet cmd "command_type").getD JVal.null == JVal.s "fill") = false := by
    rw [hact]; rfl
  have h5 : ((dictGet cmd "command_type").getD JVal.null == JVal.s "wait") = false := by
    rw [hact]; rfl
  have h6 : ((dictGet cmd "command_type").getD JVal.null
      == JVal.s "wait_for_captcha") = false := by
    rw [hact]; rfl
  have h7 : ((dictGet cmd "command_type").getD JVal.null
      == JVal.s "wait_for_page_load") = true := by
    rw [hact]; rfl
  have hbody : browserExecute pg tmo cmd =
      (match pg.loadState "domcontentloaded" (dictGetD cmd "timeout" (JVal.i 10000)) with
       | .timeout m =>
         .ok
           { success := true,
             message := JVal.s "Page load wait timed out, but continuing",
             command := (dictGet cmd "command_type").getD JVal.null,
             warning := some ("Timeout waiting for page to load completely: " ++ m) }
       | .done =>
         match pg.loadState "networkidle" (dictGetD cmd "timeout" (JVal.i 10000)) with
         | .timeout m =>
           .ok
             { success := true,
               message := JVal.s "Page load wait timed out, but continuing",
               command := (dictGet cmd "command_type").getD JVal.null,
               warning := some ("Timeout waiting for page to load completely: " ++ m) }
         | .done =>
           .ok
             { success := true, message := JVal.s "Page fully loaded",
               command := (dictGet cmd "command_type").getD JVal.null }) := by
    simp only [browserExecute]
    rw [if_neg (by simp [h1]), if_neg (by simp [h2]), if_neg (by simp [h3]),
      if_neg (by simp [h4]), if_neg (by simp [h5]), if_neg (by simp [h6]), if_pos h7]
  constructor
  · cases hg1 : pg.loadState "domcontentloaded" (dictGetD cmd "timeout" (JVal.i 10000)) with
    | done =>
      cases hg2 : pg.loadState "networkidle" (dictGetD cmd "timeout" (JVal.i 10000)) with
      | done =>
        exact ⟨{ success := true, message := JVal.s "Page fully loaded",
                 command := (dictGet cmd "command_type").getD JVal.null },
               by rw [hbody, hg1, hg2], rfl⟩
      | timeout m =>
        exact ⟨{ success := true,
                 message := JVal.s "Page load wait timed out, but continuing",
                 command := (dictGet cmd "command_type").getD JVal.null,
                 warning := some ("Timeout waiting for page to load completely: " ++ m) },
               by rw [hbody, hg1, hg2], rfl⟩
    | timeout m =>
      exact ⟨{ success := true,
               message := JVal.s "Page load wait timed out, but continuing",
               command := (dictGet cmd "command_type").getD JVal.null,
               warning := some ("Timeout waiting for page to load completely: " ++ m) },
             by rw [hbody, hg1], rfl⟩
  · rw [hbody]
    cases hg1 : pg.loadState "domcontentloaded" (dictGetD cmd "timeout" (JVal.i 10000)) with
    | done =>
      cases hg2 : pg.loadState "networkidle" (dictGetD cmd "timeout" (JVal.i 10000)) with
      | done => simp [hact]
      | timeout m => simp [hact]
    | timeout m => simp [hact]

theorem waitForPageLoad_soft_failure_witness :
    (∃ res, browserExecute idlePage 30 pageLoadCmd = Except.ok res ∧ res.success = true) ∧
    (match idlePage.loadState "domcontentloaded" (dictGetD pageLoadCmd "timeout" (JVal.i 10000)) with
     | .timeout m =>
       browserExecute idlePage 30 pageLoadCmd = .ok
         { success := true,
           message := JVal.s "Page load wait timed out, but continuing",
           command := JVal.s "wait_for_page_load",
           warning := some ("Timeout waiting for page to load completely: " ++ m) }
     | .done =>
       match idlePage.loadState "networkidle" (dictGetD pageLoadCmd "timeout" (JVal.i 10000)) with
       | .timeout m =>
         browserExecute idlePage 30 pageLoadCmd = .ok
           { success := true,
             message := JVal.s "Page load wait timed out, but continuing",
             command := JVal.s "wait_for_page_load",
             warning := some ("Timeout waiting for page to load completely: " ++ m) }
       | .done =>
         browserExecute idlePage 30 pageLoadCmd = .ok
           { success := true,
             message := JVal.s "Page fully loaded",
             command := JVal.s "wait_for_page_load" }) :=
  waitForPageLoad_soft_failure idlePage 30 pageLoadCmd rfl

/-! ## Claim C10: normalization of planner command fields -/

theorem isNormalizedVal_normalizeVal (v : JVal) :
    isNormalizedVal (normalizeVal v) = true := by
  cases v with
  | s str =>
    simp only [normalizeVal]
    by_cases h1 : (pyLower str == "true") = true
    · rw [if_pos h1]; rfl
    · rw [if_neg h1]
      by_cases h2 : (pyLower str == "false") = true
      · rw [if_pos h2]; rfl
      · rw [if_neg h2]
        by_cases h3 : pyIsDigit str = true
        · rw [if_pos h3]; rfl
        · rw [if_neg h3]
          rw [Bool.not_eq_true] at h1 h2 h3
          simp only [isNormalizedVal]
          rw [h1, h2, h3]
          rfl
  | b v => rfl
  | i v => rfl
  | null => rfl
  | arr vs => rfl
  | obj fs => rfl

theorem mem_normalizeCmd {kv : String × JVal} {c : PyDict} (h : kv ∈ normalizeCmd c) :
    isNormalizedVal kv.2 = true := by
  unfold normalizeCmd at h
  obtain ⟨kv', _, rfl⟩ := List.mem_map.mp h
  exact isNormalizedVal_normalizeVal kv'.2

theorem mem_restrictBlank {c : PyDict} {blank : Bool} {l : List PyDict}
    (h : c ∈ restrictBlank blank l) : c ∈ l ∨ c = defaultNavigateCmd := by
  cases blank with
  | false =>
    simp only [restrictBlank, Bool.false_eq_true, if_false] at h
    exact Or.inl h
  | true =>
    cases l with
    | nil =>
      simp only [restrictBlank, if_true] at h
      exact Or.inr (by simpa using h)
    | cons a l =>
      by_cases hn : isNavigateCmd a = true
      · simp only [restrictBlank, if_true, hn] at h
        have h2 : c = a := by simpa using h
        exact Or.inl (h2 ▸ List.mem_cons_self a l)
      · simp only [restrictBlank, if_true, hn, Bool.false_eq_true, if_false] at h
        exact Or.inr (by simpa using h)

theorem mem_insertWaits {c : PyDict} {l : List PyDict} (h : c ∈ insertWaits l) :
    c ∈ l ∨ c = waitForPageLoadCmd := by
  induction l with
  | nil => simp [insertWaits] at h
  | cons a l ih =>
    unfold insertWaits at h
    by_cases hn : isNavigateCmd a = true
    · rw [if_pos hn] at h
      rw [List.mem_cons] at h
      rcases h with rfl | h
      · exact Or.inl (List.mem_cons_self c l)
      · exact Or.inr (by simpa using h)
    · rw [if_neg hn] at h
      rw [List.mem_cons] at h
      rcases h with rfl | h
      · exact Or.inl (List.mem_cons_self c l)
      · rcases ih h with hm | hm
        · exact Or.inl (List.mem_cons_of_mem a hm)
        · exact Or.inr hm

theorem mem_mapLast {c : PyDict} {f : PyDict → PyDict} {l : List PyDict}
    (h : c ∈ mapLast f l) : c ∈ l ∨ ∃ d, d ∈ l ∧ c = f d := by
  induction l with
  | nil => simp [mapLast] at h
  | cons a l ih =>
    cases l with
    | nil =>
      simp only [mapLast] at h
      have h2 : c = f a := by simpa using h
      exact Or.inr ⟨a, List.mem_cons_self a [], h2⟩
    | cons b l2 =>
      simp only [mapLast] at h
      rw [List.mem_cons] at h
      rcases h with rfl | h
      · exact Or.inl (List.mem_cons_self c (b :: l2))
      · rcases ih h with hm | ⟨d, hd, rfl⟩
        · exact Or.inl (List.mem_cons_of_mem a hm)
        · exact Or.inr ⟨d, List.mem_cons_of_mem a hd, rfl⟩

theorem mem_dictSet {kv : String × JVal} {d : PyDict} {k : String} {v : JVal}
    (h : kv ∈ dictSet d k v) : kv = (k, v) ∨ (kv ∈ d ∧ kv.1 ≠ k) := by
  by_cases hhas : dictHas d k = true
  · unfold dictSet at h
    rw [if_pos hhas] at h
    obtain ⟨kv', hmem, heq⟩ := List.mem_map.mp h
    by_cases hb : (kv'.1 == k) = true
    · rw [if_pos hb] at heq
      exact Or.inl heq.symm
    · rw [if_neg hb] at heq
      subst heq
      refine Or.inr ⟨hmem, ?_⟩
      intro hk
      exact hb (by simp [hk])
  · unfold dictSet at h
    rw [if_neg hhas] at h
    rcases List.mem_append.mp h with hmem | hmem
    · refine Or.inr ⟨hmem, ?_⟩
      intro hk
      rw [Bool.not_eq_true] at hhas
      unfold dictHas at hhas
      rw [List.any_eq_false] at hhas
      exact hhas kv hmem (by simp [hk])
    · exact Or.inl (by simpa using hmem)

/-- C10 (amended): every field of every command produced by
`get_browser_commands` is normalized, except the `task_summary` field
attached verbatim at line 301 of `browser_session.py`. -/
theorem getBrowserCommands_normalized_fields (parsed : PyDict) (ps : Option PyDict) :
    ∀ c ∈ getBrowserCommands parsed ps, ∀ kv ∈ c,
      kv.1 ≠ "task_summary" → isNormalizedVal kv.2 = true := by
  intro c hc kv hkv hne
  simp only [getBrowserCommands] at hc
  by_cases hemp : ((parseCommands parsed).map normalizeCmd).isEmpty = true
  · rw [if_pos hemp] at hc
    simp at hc
  · rw [if_neg hemp] at hc
    have hbase : ∀ c' ∈ restrictBlank (isBlankPage ps)
        ((parseCommands parsed).map normalizeCmd),
        ∀ kv' ∈ c', isNormalizedVal kv'.2 = true := by
      intro c' hc' kv' hkv'
      rcases mem_restrictBlank hc' with hmem | rfl
      · obtain ⟨c0, _, rfl⟩ := List.mem_map.mp hmem
        exact mem_normalizeCmd hkv'
      · simp only [defaultNavigateCmd] at hkv'
        rw [List.mem_cons] at hkv'
        rcases hkv' with rfl | hkv'
        · rfl
        · have h2 : kv' = ("url", JVal.s "https://www.google.com") := by simpa using hkv'
          subst h2
          rfl
    have hproc : ∀ c' ∈ insertWaits (restrictBlank (isBlankPage ps)
        ((parseCommands parsed).map normalizeCmd)),
        ∀ kv' ∈ c', isNormalizedVal kv'.2 = true := by
      intro c' hc' kv' hkv'
      rcases mem_insertWaits hc' with hmem | rfl
      · exact hbase c' hmem kv' hkv'
      · simp only [waitForPageLoadCmd] at hkv'
        rw [List.mem_cons] at hkv'
        rcases hkv' with rfl | hkv'
        · rfl
        · have h2 : kv' = ("timeout", JVal.i 10000) := by simpa using hkv'
          subst h2
          rfl
    unfold attachCompletion at hc
    by_cases hsig : (completionSignal parsed (restrictBlank (isBlankPage ps)
        ((parseCommands parsed).map normalizeCmd))).1 = true
    · rw [if_pos hsig] at hc
      rcases mem_mapLast hc with hmem | ⟨d, hd, rfl⟩
      · exact hproc c hmem kv hkv
      · simp only [] at hkv
        by_cases hts : (completionSignal parsed (restrictBlank (isBlankPage ps)
            ((parseCommands parsed).map normalizeCmd))).2.truthy = true
        · rw [if_pos hts] at hkv
          rcases mem_dictSet hkv with rfl | ⟨hkv2, hne2⟩
          · exact absurd rfl hne
          · rcases mem_dictSet hkv2 with rfl | ⟨hkv3, _⟩
            · rfl
            · exact hproc d hd kv hkv3
        · rw [if_neg hts] at hkv
          rcases mem_dictSet hkv with rfl | ⟨hkv3, _⟩
          · rfl
          · exact hproc d hd kv hkv3
    · rw [if_neg hsig] at hc
      exact hproc c hc kv hkv

theorem getBrowserCommands_normalized_fields_witness :
    (("command_type", JVal.s "wait") : String × JVal).1 ≠ "task_summary" ∧
    isNormalizedVal (JVal.s "wait") = true :=
  ⟨by decide,
   getBrowserCommands_normalized_fields summaryResponse (some examplePageStructure)
     [("command_type", JVal.s "wait"), ("task_completed", JVal.b true),
      ("task_summary", JVal.s "true")]
     (List.mem_cons_self _ _)
     ("command_type", JVal.s "wait")
     (List.mem_cons_self _ _)
     (by decide)⟩

end BrowserAuto
